import Mathlib

/-!
Bangla Braille to Voice: browser client

A shallow embedding of the three client scripts (`app.js`, `auth.js`,
`navigation.js`) and the properties of their state handling.

Conventions of the embedding.

* A value produced by `JSON.parse` is a `Json`. A JavaScript value held in a
  variable or returned by a property read is a `JsVal`: either `undefined` or
  a `Json` (every value the scripts hold comes out of `JSON.parse`, out of a
  form field or out of a literal, so `undefined` never occurs nested).
* A `localStorage` item is a `Stored`: a text classified by what `JSON.parse`
  does with it. `JSON.stringify` of an object literal drops the properties
  whose value is `undefined`, so writing and re-reading a value is the
  identity on `Json`.
* Network replies, the clock and the answer to `confirm` are parameters of
  the operation that consumes them.
* Exceptions are values of `JsError`; an operation that can be left through
  an exception returns `Except JsError _`, or its state at the point the
  exception leaves it when the caller only observes the state.
-/

namespace BrailleVoice

/-! ## JavaScript values -/

/-- Values of JSON texts, as `JSON.parse` returns them. A number carries the
exact value of its IEEE double. An object lists its own properties in
insertion order, each key once. -/
inductive Json where
  | null : Json
  | bool (b : Bool) : Json
  | num (q : ℚ) : Json
  | str (s : String) : Json
  | arr (items : List Json) : Json
  | obj (props : List (String × Json)) : Json

/-- A JavaScript value as the scripts hold it: `undefined`, or a JSON value. -/
inductive JsVal where
  | undefined : JsVal
  | val (v : Json) : JsVal

/-- Text of an error message. -/
inductive Message where
  /-- A string the program holds. -/
  | text (s : String) : Message
  /-- The string conversion `String(v)` of a value that is not a string. -/
  | ofValue (v : Json) : Message
  /-- The engine's text for the TypeError raised by reading property `prop`
  of `null` or `undefined`. -/
  | cannotRead (prop : String) : Message

/-- Exceptions the scripts can raise or meet. -/
inductive JsError where
  /-- `JSON.parse` rejected its argument. -/
  | syntaxError : JsError
  /-- A property of `null` or `undefined` was read or written, or a value
  that is not a function was called. -/
  | typeError (message : Message) : JsError
  /-- `throw new Error(message)`. -/
  | error (message : Message) : JsError

/-- The `message` property of a caught exception. -/
def JsError.message : JsError → Message
  | .syntaxError => .text "Unexpected token"
  | .typeError m => m
  | .error m => m

/-- Own-property lookup in a property list. -/
def lookup (k : String) : List (String × Json) → JsVal
  | [] => .undefined
  | (k', v) :: rest => if k' = k then .val v else lookup k rest

/-- The read `v.k` or `v[k]` for a value `v` other than `null`, for a key
that names no inherited property: the own property of an object, and
`undefined` on every other value. -/
def Json.field (v : Json) (k : String) : JsVal :=
  match v with
  | .obj props => lookup k props
  | _ => .undefined

/-- The read `v.k`: a TypeError on `null`, else `Json.field`. -/
def Json.prop (v : Json) (k : String) : Except JsError JsVal :=
  match v with
  | .null => .error (.typeError (.cannotRead k))
  | _ => .ok (v.field k)

/-- Truthiness of a JSON value (`ToBoolean`). -/
def Json.truthy : Json → Bool
  | .null => false
  | .bool b => b
  | .num q => decide (q ≠ 0)
  | .str s => decide (s ≠ "")
  | .arr _ => true
  | .obj _ => true

/-- Truthiness of a value (`ToBoolean`). -/
def JsVal.truthy : JsVal → Bool
  | .undefined => false
  | .val v => v.truthy

/-- The test `x !== null`. -/
def JsVal.notNull : JsVal → Bool
  | .val .null => false
  | _ => true

/-- A value is present when it is neither `null` nor `undefined`. -/
def JsVal.present : JsVal → Bool
  | .undefined => false
  | .val .null => false
  | _ => true

/-- The message of `new Error(x)`: the string itself, or the string
conversion of another value. -/
def JsVal.toMessage : JsVal → Message
  | .undefined => .text "undefined"
  | .val (.str s) => .text s
  | .val v => .ofValue v

/-- The property `k: x` of an object literal as `JSON.stringify` writes it:
left out when `x` is `undefined`. -/
def stringifyProp (k : String) : JsVal → List (String × Json)
  | .undefined => []
  | .val v => [(k, v)]

/-! ## Local storage -/

/-- A `localStorage` item, classified by what `JSON.parse` does with its
text; `α` is the type of the values the item is read as. -/
inductive Stored (α : Type) where
  /-- A JSON text; `JSON.parse` returns `v`, and `JSON.stringify v` is such a
  text. -/
  | json (v : α) : Stored α
  /-- The empty string: falsy, and rejected by `JSON.parse`. -/
  | empty : Stored α
  /-- A non-empty text that `JSON.parse` rejects. -/
  | malformed : Stored α

/-- The expression `JSON.parse(localStorage.getItem(key) || dflt)`, where
`dflt` is the JSON text of `d`: a missing item and the empty string are
falsy and give way to the default. -/
def parseItemOr {α : Type} (item : Option (Stored α)) (d : α) : Except JsError α :=
  match item with
  | none => .ok d
  | some .empty => .ok d
  | some (.json v) => .ok v
  | some .malformed => .error .syntaxError

/-! ## `app.js`: file intake -/

/-- The fields of a `File` that the intake reads. -/
structure File where
  name : String
  type : String
  size : Nat
deriving DecidableEq

/-- The intake state of `app.js`: the global `selectedFile` and the error
panel (title and message of the last `showError`, if any was shown by the
call). -/
structure Intake where
  selectedFile : Option File
  shown : Option (String × String)
deriving DecidableEq

/-- The array `allowedTypes` of `handleFile`. -/
def allowedTypes : List String :=
  ["image/png", "image/jpeg", "image/jpg", "image/bmp", "image/tiff", "image/webp"]

/-- The function `handleFile(file)` of `app.js`, started with `selectedFile = p`. -/
def handleFile (p : Option File) (file : File) : Intake :=
  if file.type ∉ allowedTypes then
    { selectedFile := p
      shown := some ("Invalid File Type",
        "Please select a valid image file (PNG, JPG, BMP, TIFF, WEBP)") }
  else if file.size > 10 * 1024 * 1024 then
    { selectedFile := p
      shown := some ("File Too Large", "Please select an image smaller than 10MB") }
  else
    { selectedFile := some file, shown := none }

/-! ## `app.js` and `navigation.js`: the conversion history -/

/-- The object literal that `saveToHistory(data)` passes to `unshift`, as
`JSON.stringify` writes it; `now` is `new Date().toISOString()`. Reading a
property of `data` throws when `data` is `null`. -/
def historyEntry (now : String) (data : Json) : Except JsError Json := do
  let text ← data.prop "text"
  let confidence ← data.prop "confidence"
  let duration ← data.prop "duration"
  pure (.obj (("timestamp", .str now) ::
    (stringifyProp "text" text ++ stringifyProp "confidence" confidence ++
      stringifyProp "duration" duration)))

/-- The function `saveToHistory(data)` of `app.js`, on the item
`brailleHistory`: the item the call leaves, or the exception that leaves the
call before `setItem`. -/
def saveToHistory (item : Option (Stored Json)) (now : String) (data : Json) :
    Except JsError (Option (Stored Json)) := do
  let history ← parseItemOr item (.arr [])
  match history with
  | .null => .error (.typeError (.cannotRead "unshift"))
  | .arr entries =>
    let entry ← historyEntry now data
    let history := entry :: entries
    let history := if history.length > 10 then history.dropLast else history
    pure (some (.json (.arr history)))
  | _ =>
    let _ ← historyEntry now data
    .error (.typeError (.text "history.unshift is not a function"))

/-- The method `clearHistory()` of `navigation.js`, on the item
`brailleHistory`; `confirmed` is the answer to `confirm`. The views it
refreshes afterwards read the item and write nothing. -/
def clearHistory (item : Option (Stored Json)) (confirmed : Bool) : Option (Stored Json) :=
  if confirmed then none else item

/-- A call that writes the item `brailleHistory`. -/
inductive HistoryCall where
  | saveToHistory (now : String) (data : Json) : HistoryCall
  | clearHistory (confirmed : Bool) : HistoryCall

/-- The item `brailleHistory` after one call; a call left through an
exception has written nothing. -/
def HistoryCall.run (item : Option (Stored Json)) : HistoryCall → Option (Stored Json)
  | .saveToHistory now data =>
    match BrailleVoice.saveToHistory item now data with
    | .ok item' => item'
    | .error _ => item
  | .clearHistory confirmed => BrailleVoice.clearHistory item confirmed

/-- The item `brailleHistory` after a sequence of calls, in order. -/
def runHistoryCalls (item : Option (Stored Json)) (calls : List HistoryCall) : Option (Stored Json) :=
  calls.foldl HistoryCall.run item

/-- The history sequence that the readers of the item obtain, if it is one:
`JSON.parse(localStorage.getItem('brailleHistory') || '[]')` is an array. -/
def persistedHistory (item : Option (Stored Json)) : Option (List Json) :=
  match parseItemOr item (.arr []) with
  | .ok (.arr entries) => some entries
  | _ => none

/-- The cap of the history store: the item holds a sequence of at most 10
entries. -/
def HistoryCapped (item : Option (Stored Json)) : Prop :=
  ∃ entries, persistedHistory item = some entries ∧ entries.length ≤ 10

/-! ## `navigation.js`: settings -/

/-- The own properties of the settings object. The item `appSettings` is
written by `saveSetting` alone, which writes an object, so the item is read
as one of these. -/
abbrev Settings := List (String × Json)

/-- Creating or overwriting the own property `k`: an existing property keeps
its place, a new one goes last. -/
def setOwn (k : String) (v : Json) : Settings → Settings
  | [] => [(k, v)]
  | (k', v') :: rest => if k' = k then (k, v) :: rest else (k', v') :: setOwn k v rest

/-- Whether `k` is an own property. -/
def hasOwn (k : String) (settings : Settings) : Bool :=
  settings.any (fun kv => decide (kv.1 = k))

/-- The assignment `settings[key] = value` on an object returned by
`JSON.parse`, as `JSON.stringify` sees the object afterwards. The prototype of
the object is `Object.prototype`, where `__proto__` is an accessor: unless the
object has an own property of that name, assigning to `__proto__` runs the
setter, which creates no own property. Every other key is created or
overwritten as an own property. -/
def assign (settings : Settings) (key : String) (value : Json) : Settings :=
  if key = "__proto__" ∧ hasOwn key settings = false then settings
  else setOwn key value settings

/-- The method `saveSetting(key, value)` of `navigation.js`, on the item
`appSettings`. -/
def saveSetting (item : Option (Stored Settings)) (key : String) (value : Json) :
    Except JsError (Option (Stored Settings)) := do
  let settings ← parseItemOr item []
  pure (some (.json (assign settings key value)))

/-- The record that `loadSettings()` of `navigation.js` reads from the item
`appSettings` and then applies to the controls of the page. -/
def loadSettings (item : Option (Stored Settings)) : Except JsError Settings :=
  parseItemOr item []

/-! ## `auth.js`: the session manager -/

/-- The fields of `AuthManager` and the item `braillevoice_auth`. -/
structure AuthManager where
  currentUser : JsVal
  token : JsVal
  stored : Option (Stored Json)

/-- What a call does besides changing the session: requests, messages shown
and log entries, in order. -/
inductive Effect where
  /-- A `fetch` of `apiUrl + path`, with the strings of its body. -/
  | fetch (path : String) (body : List String) : Effect
  | showError (message : Message) : Effect
  | showSuccess (message : String) : Effect
  | closeAuthModal : Effect
  | consoleError : Effect

/-- How a `fetch` and the reading of its body end. -/
inductive FetchOutcome where
  /-- The promise of `fetch` rejects with an error of this message. -/
  | networkError (message : String) : FetchOutcome
  /-- A response arrives; `ok` tells a 2xx status, and `response.json()`
  gives the body or rejects with an error of some message. -/
  | response (ok : Bool) (body : Except String Json) : FetchOutcome

/-- The state set by the constructor before `init()`. -/
def AuthManager.initial (stored : Option (Stored Json)) : AuthManager :=
  { currentUser := .val .null, token := .val .null, stored := stored }

/-- The method `isAuthenticated()`. -/
def isAuthenticated (a : AuthManager) : Bool :=
  a.token.notNull && a.currentUser.notNull

/-- The method `updateUI()`, whose effect is on the page alone: it reads
`this.currentUser.username` when `isAuthenticated()` holds, which throws on
`undefined`. -/
def updateUI (a : AuthManager) : Except JsError Unit :=
  if isAuthenticated a then
    match a.currentUser with
    | .undefined => .error (.typeError (.cannotRead "username"))
    | .val _ => .ok ()
  else .ok ()

/-- The method `storeAuth(token, user)`. -/
def storeAuth (_a : AuthManager) (token user : JsVal) : AuthManager :=
  { token := token
    currentUser := user
    stored := some (.json (.obj (stringifyProp "token" token ++ stringifyProp "user" user))) }

/-- The method `clearAuth()`; its `updateUI()` finds `isAuthenticated()` false
and cannot throw. -/
def clearAuth (_a : AuthManager) : AuthManager :=
  { token := .val .null, currentUser := .val .null, stored := none }

/-- The part of `validateToken()` after `await fetch(...)`: the session it
leaves, what it does, and the value it returns. -/
def validateTokenSettle (a : AuthManager) (reply : FetchOutcome) :
    AuthManager × List Effect × Bool :=
  match reply with
  | .networkError _ => (clearAuth a, [.consoleError], false)
  | .response false _ => (clearAuth a, [], false)
  | .response true (.error _) => (clearAuth a, [.consoleError], false)
  | .response true (.ok data) =>
    match data.prop "authenticated" with
    | .error _ => (clearAuth a, [.consoleError], false)
    | .ok flag => if flag.truthy then (a, [], true) else (clearAuth a, [], false)

/-- The method `validateToken()`, awaited. -/
def validateToken (a : AuthManager) (reply : FetchOutcome) :
    AuthManager × List Effect × Bool :=
  let r := validateTokenSettle a reply
  (r.1, .fetch "/check" [] :: r.2.1, r.2.2)

/-- The method `loadStoredAuth()`, up to its return. It calls
`validateToken()` without awaiting it: the request is issued, and the part
after the `await` (`validateTokenSettle`) runs once the reply arrives. -/
def loadStoredAuth (a : AuthManager) : AuthManager × List Effect :=
  match a.stored with
  | none => (a, [])
  | some .empty => (a, [])
  | some .malformed => (clearAuth a, [.consoleError])
  | some (.json auth) =>
    match auth.prop "token" with
    | .error _ => (clearAuth a, [.consoleError])
    | .ok token =>
      ({ a with token := token, currentUser := auth.field "user" }, [.fetch "/check" []])

/-- The method `login(username, password)`: the session it leaves, what it
does, and the value it returns. -/
def login (a : AuthManager) (username password : String) (reply : FetchOutcome) :
    AuthManager × List Effect × Bool :=
  let sent := Effect.fetch "/login" [username, password]
  match reply with
  | .networkError m => (a, [sent, .showError (.text m)], false)
  | .response _ (.error m) => (a, [sent, .showError (.text m)], false)
  | .response false (.ok data) =>
    match data.prop "detail" with
    | .error e => (a, [sent, .showError e.message], false)
    | .ok detail =>
      (a, [sent, .showError (if detail.truthy then detail.toMessage else .text "Login failed")],
        false)
  | .response true (.ok data) =>
    match data.prop "access_token" with
    | .error e => (a, [sent, .showError e.message], false)
    | .ok token =>
      let a' := storeAuth a token (data.field "user")
      match updateUI a' with
      | .error e => (a', [sent, .showError e.message], false)
      | .ok _ => (a', [sent, .closeAuthModal, .showSuccess "Login successful!"], true)

/-- The method `register(username, email, password)`. -/
def register (a : AuthManager) (username email password : String) (reply : FetchOutcome) :
    AuthManager × List Effect × Bool :=
  let sent := Effect.fetch "/register" [username, email, password]
  match reply with
  | .networkError m => (a, [sent, .showError (.text m)], false)
  | .response _ (.error m) => (a, [sent, .showError (.text m)], false)
  | .response false (.ok data) =>
    match data.prop "detail" with
    | .error e => (a, [sent, .showError e.message], false)
    | .ok detail =>
      (a, [sent,
        .showError (if detail.truthy then detail.toMessage else .text "Registration failed")],
        false)
  | .response true (.ok data) =>
    match data.prop "access_token" with
    | .error e => (a, [sent, .showError e.message], false)
    | .ok token =>
      let a' := storeAuth a token (data.field "user")
      match updateUI a' with
      | .error e => (a', [sent, .showError e.message], false)
      | .ok _ => (a', [sent, .closeAuthModal, .showSuccess "Registration successful!"], true)

/-- The `submit` handler of the register form, installed by
`setupEventListeners()`: the register operation on the four form fields.
`reply` is the outcome of the request, if one is made. -/
def registerFormSubmit (a : AuthManager) (username email password confirmPassword : String)
    (reply : FetchOutcome) : AuthManager × List Effect :=
  if password ≠ confirmPassword then
    (a, [.showError (.text "Passwords do not match")])
  else
    let r := register a username email password reply
    (r.1, r.2.1)

/-- The method `logout()`. -/
def logout (a : AuthManager) (reply : FetchOutcome) : AuthManager × List Effect :=
  if a.token.truthy = false then (a, [])
  else
    let sent := Effect.fetch "/logout" []
    match reply with
    | .networkError _ =>
      (clearAuth a, [sent, .consoleError, .showSuccess "Logged out successfully!"])
    | .response _ _ => (clearAuth a, [sent, .showSuccess "Logged out successfully!"])

/-- Whether an effect is a network request. -/
def Effect.isFetch : Effect → Bool
  | .fetch _ _ => true
  | _ => false

/-! ## `navigation.js`: the view router -/

/-- The parts of the page that the router consults and does not change. -/
structure Page where
  /-- The ids `p` for which an element `p-page` exists. -/
  pageIds : List String
  /-- Whether the element `sidebar` exists. -/
  hasSidebar : Bool
  innerWidth : Nat

/-- The fields of `NavigationManager`, and the fragment of the URL
(`window.location.hash` without its `#`). -/
structure Router where
  currentPage : String
  sidebarOpen : Bool
  fragment : String

/-- The state set by the constructor before `init()`. -/
def Router.initial (fragment : String) : Router :=
  { currentPage := "converter", sidebarOpen := false, fragment := fragment }

/-- The method `isValidPage(page)`. -/
def isValidPage (page : String) : Bool :=
  ["converter", "dashboard", "history", "help", "about", "settings"].contains page

/-- The method `showPage(pageId)`, whose effect is on the page alone: it
calls `targetPage.querySelector` on the result of `getElementById`, which
throws when no element `pageId-page` exists. -/
def showPage (dom : Page) (pageId : String) : Except JsError Unit :=
  if pageId ∈ dom.pageIds then .ok ()
  else .error (.typeError (.cannotRead "querySelector"))

/-- The method `closeSidebar()`. -/
def closeSidebar (dom : Page) (r : Router) : Router :=
  if dom.hasSidebar then { r with sidebarOpen := false } else r

/-- The method `navigateToPage(page)`: the state in which the call leaves the
router, whether it returns or is left through the exception of `showPage`.
What follows the assignment to the fragment (`loadPageData`) renders the
page and changes no field. -/
def navigateToPage (dom : Page) (r : Router) (page : String) : Router :=
  let r := { r with currentPage := page }
  match showPage dom page with
  | .error _ => r
  | .ok _ =>
    let r := { r with fragment := page }
    if dom.innerWidth ≤ 1024 then closeSidebar dom r else r

/-- The method `handleHashChange()`. -/
def handleHashChange (dom : Page) (r : Router) : Router :=
  if r.fragment ≠ "" ∧ isValidPage r.fragment = true then navigateToPage dom r r.fragment
  else r

/-! ## `auth.js`: request headers and sequences of calls -/

/-- The value of a header that `getAuthHeaders()` builds. -/
inductive HeaderValue where
  /-- The template literal made of `Bearer`, a space and the text of the
  token. -/
  | bearer (token : JsVal) : HeaderValue

/-- The method `getAuthHeaders()`: the properties of the object it returns. -/
def getAuthHeaders (a : AuthManager) : List (String × HeaderValue) :=
  if a.token.truthy then [("Authorization", .bearer a.token)] else []

/-- A call on the session manager, with the outcome of the request it makes. -/
inductive AuthCall where
  | loadStoredAuth : AuthCall
  | validateToken (reply : FetchOutcome) : AuthCall
  | login (username password : String) (reply : FetchOutcome) : AuthCall
  | register (username email password : String) (reply : FetchOutcome) : AuthCall
  | logout (reply : FetchOutcome) : AuthCall

/-- The session after one call. -/
def AuthCall.run (a : AuthManager) : AuthCall → AuthManager
  | .loadStoredAuth => (BrailleVoice.loadStoredAuth a).1
  | .validateToken reply => (BrailleVoice.validateToken a reply).1
  | .login username password reply => (BrailleVoice.login a username password reply).1
  | .register username email password reply =>
    (BrailleVoice.register a username email password reply).1
  | .logout reply => (BrailleVoice.logout a reply).1

/-- The session after a sequence of calls, in order. -/
def runAuthCalls (a : AuthManager) (calls : List AuthCall) : AuthManager :=
  calls.foldl AuthCall.run a

/-- A JSON value carries a token under `tokenKey` and a user under `user`
together: both present or both absent. -/
def PairedFields (tokenKey : String) (v : Json) : Prop :=
  (v.field tokenKey).present = (v.field "user").present

/-- A stored session record that parses carries its token and its user
together. -/
def PairedRecord : Option (Stored Json) → Prop
  | some (.json v) => PairedFields "token" v
  | _ => True

/-- A reply that establishes a session (2xx with a body that parses) carries
its `access_token` and its `user` together. -/
def PairedReply : FetchOutcome → Prop
  | .response true (.ok data) => PairedFields "access_token" data
  | _ => True

/-- The replies to the `login` and `register` calls carry token and user
together. -/
def AuthCall.Paired : AuthCall → Prop
  | .login _ _ reply => PairedReply reply
  | .register _ _ _ reply => PairedReply reply
  | _ => True

/-- The session holds its token and its user together, and so does its
stored record. -/
def SessionPaired (a : AuthManager) : Prop :=
  a.token.present = a.currentUser.present ∧ PairedRecord a.stored

/-- A stored text that `JSON.parse` rejects. -/
def Stored.unparsable {α : Type} : Stored α → Bool
  | .json _ => false
  | .empty => true
  | .malformed => true

/-- The reply carries a positive `authenticated` flag: a 2xx response whose
body parses and has a truthy `authenticated` property. -/
def FetchOutcome.authenticated : FetchOutcome → Bool
  | .response true (.ok data) => (data.field "authenticated").truthy
  | _ => false

/-! ## Double-precision numbers

The numbers of the scripts are IEEE 754 binary64 values. A finite value is
carried as the rational it denotes (the sign of zero is not recorded: no text
the scripts build tells `-0` from `0`), and every arithmetic result is rounded
to the nearest binary64 value, ties to even. -/

/-- The number of binary digits of `n`, counted with `fuel` halvings. -/
def bitLengthAux : ℕ → ℕ → ℕ
  | 0, _ => 0
  | fuel + 1, n => if n = 0 then 0 else bitLengthAux fuel (n / 2) + 1

/-- The number of binary digits of `n`: `2 ^ (bitLength n - 1) ≤ n < 2 ^ bitLength n`
for a positive `n`. -/
def bitLength (n : ℕ) : ℕ := bitLengthAux n n

/-- The exponent `e` of the binade of the positive ratio `n / d`:
`2 ^ e ≤ n / d < 2 ^ (e + 1)`. -/
def binade (n d : ℕ) : ℤ :=
  let e0 : ℤ := (bitLength n : ℤ) - (bitLength d : ℤ)
  if d * 2 ^ e0.toNat ≤ n * 2 ^ (-e0).toNat then e0 else e0 - 1

/-- The integer nearest to `n / d`, the even one of two equally near. -/
def roundHalfEven (n d : ℕ) : ℕ :=
  if 2 * (n % d) < d then n / d
  else if d < 2 * (n % d) then n / d + 1
  else if n / d % 2 = 0 then n / d else n / d + 1

/-- The exponent `p` of the unit in the last place of the binary64 values
around `n / d`: 52 below the binade, and `-1074` in the subnormal range. -/
def quantumExp (n d : ℕ) : ℤ := max (binade n d) (-1022) - 52

/-- The significand `m` of the binary64 value `m * 2 ^ p` nearest to `n / d`,
with `p = quantumExp n d`. -/
def significand (n d : ℕ) : ℕ :=
  roundHalfEven (n * 2 ^ (-(quantumExp n d)).toNat) (d * 2 ^ (quantumExp n d).toNat)

/-- A number value other than `NaN`. -/
inductive JsNumber where
  | finite (q : ℚ) : JsNumber
  | infinite (negative : Bool) : JsNumber
deriving DecidableEq

/-- An integral number value: a result of `Math.round` or `Math.floor`. -/
inductive JsInteger where
  | finite (k : ℤ) : JsInteger
  | infinite (negative : Bool) : JsInteger
deriving DecidableEq

/-- The binary64 value nearest to the ratio `n / d` taken with the given
sign; a result of magnitude `2 ^ 1024` or more is an infinity. -/
def toBinary64 (negative : Bool) (n d : ℕ) : JsNumber :=
  if n = 0 then .finite 0
  else if 972 ≤ quantumExp n d ∨ (quantumExp n d = 971 ∧ significand n d = 2 ^ 53) then
    .infinite negative
  else .finite (mkRat
    (if negative then -((significand n d * 2 ^ (quantumExp n d).toNat : ℕ) : ℤ)
      else ((significand n d * 2 ^ (quantumExp n d).toNat : ℕ) : ℤ))
    (2 ^ (-(quantumExp n d)).toNat))

/-- The binary64 value nearest to `num / den`, for a positive `den`. -/
def ofRatio (num : ℤ) (den : ℕ) : JsNumber :=
  toBinary64 (decide (num < 0)) num.natAbs den

/-- The sum `x + y` of numbers, `y` finite. -/
def JsNumber.add (x : JsNumber) (y : ℚ) : JsNumber :=
  match x with
  | .finite a => ofRatio (a.num * y.den + y.num * a.den) (a.den * y.den)
  | .infinite negative => .infinite negative

/-- The quotient `x / n` by a positive integer `n`. -/
def JsNumber.divNat (x : JsNumber) (n : ℕ) : JsNumber :=
  match x with
  | .finite a => ofRatio a.num (a.den * n)
  | .infinite negative => .infinite negative

/-- The product `x * k` by a positive integer `k`. -/
def JsNumber.mulNat (x : JsNumber) (k : ℕ) : JsNumber :=
  match x with
  | .finite a => ofRatio (a.num * k) a.den
  | .infinite negative => .infinite negative

/-- The function `Math.round`: the nearest integer, the larger of two equally
near. -/
def JsNumber.round (x : JsNumber) : JsInteger :=
  match x with
  | .finite a => .finite ((2 * a.num + a.den) / (2 * a.den))
  | .infinite negative => .infinite negative

/-- The function `Math.floor`. -/
def JsNumber.floor (x : JsNumber) : JsInteger :=
  match x with
  | .finite a => .finite (a.num / a.den)
  | .infinite negative => .infinite negative

/-! ## Numbers as text -/

/-- Whether the integer `c`, read as a number, is the binary64 value `v`. -/
def readsBackAs (c v : ℕ) : Bool := decide (ofRatio c 1 = ofRatio v 1)

/-- The multiple of `scale` that reads back as `v`, if one of the two around
`v` does: the nearer one, and of two equally near the one with the even
multiplier. -/
def shortestAt (v scale : ℕ) : Option ℕ :=
  match readsBackAs (v / scale * scale) v, readsBackAs (v / scale * scale + scale) v with
  | true, true =>
    if v - v / scale * scale < v / scale * scale + scale - v then some (v / scale * scale)
    else if v / scale * scale + scale - v < v - v / scale * scale then
      some (v / scale * scale + scale)
    else if v / scale % 2 = 0 then some (v / scale * scale)
    else some (v / scale * scale + scale)
  | true, false => some (v / scale * scale)
  | false, true => some (v / scale * scale + scale)
  | false, false => none

/-- The search for the decimal with the fewest significant digits, from `k`
digits on, for `v` of `digits` decimal digits. -/
def shortestAux (v digits : ℕ) : ℕ → ℕ → ℕ
  | 0, _ => v
  | fuel + 1, k =>
    match shortestAt v (10 ^ (digits - k)) with
    | some c => c
    | none => shortestAux v digits fuel (k + 1)

/-- The integer with the fewest significant decimal digits that reads back as
the integral binary64 value `v`; 17 digits always suffice. -/
def shortestDecimal (v : ℕ) : ℕ := shortestAux v (toString v).length 17 1

/-- A list of digits without its trailing zeros. -/
def trimZeros (cs : List Char) : List Char :=
  (cs.reverse.dropWhile (fun c => c == '0')).reverse

/-- The exponent form of the integer `c`: its first significant digit, the
others after a point, and the decimal exponent. -/
def exponentText (c : ℕ) : String :=
  String.mk ((trimZeros (toString c).toList).take 1 ++
    (if 1 < (trimZeros (toString c).toList).length
      then '.' :: (trimZeros (toString c).toList).drop 1 else [])) ++
    "e+" ++ toString ((toString c).length - 1)

/-- The text of a non-negative integral binary64 value `v` (`Number::toString`).
Below `2 ^ 53` every integer is a binary64 value, so the shortest decimal that
reads back as `v` is `v`; above, the shortest decimal is written, in exponent
form from `10 ^ 21` on. -/
def naturalText (v : ℕ) : String :=
  if v < 2 ^ 53 then toString v
  else if shortestDecimal v < 10 ^ 21 then toString (shortestDecimal v)
  else exponentText (shortestDecimal v)

/-- The text of an integral number in a template literal. -/
def JsInteger.text (x : JsInteger) : String :=
  match x with
  | .finite k => if k < 0 then "-" ++ naturalText k.natAbs else naturalText k.natAbs
  | .infinite negative => if negative then "-Infinity" else "Infinity"

/-- The method `toFixed(1)`: the tenths nearest to the magnitude, the larger
of two equally near, written with one decimal; from `10 ^ 21` on the text of
the number itself. -/
def JsNumber.toFixed1 (x : JsNumber) : String :=
  match x with
  | .finite a =>
    (if a.num < 0 then "-" else "") ++
      (if 10 ^ 21 * a.den ≤ a.num.natAbs then naturalText (a.num.natAbs / a.den)
       else toString ((20 * a.num.natAbs + a.den) / (2 * a.den) / 10) ++ "." ++
         toString ((20 * a.num.natAbs + a.den) / (2 * a.den) % 10))
  | .infinite negative => if negative then "-Infinity" else "Infinity"

/-! ## `navigation.js`: summary statistics -/

/-- The three texts that `updateStats()` writes to the page. -/
structure Stats where
  totalConversions : String
  avgAccuracy : String
  avgTime : String
deriving DecidableEq

/-- The number that `x || 0` adds to a sum, where it is one: a falsy `x`
gives 0, a number itself, `true` gives 1. A truthy string, array or object
turns the sum into a string concatenation, which the embedding does not
cover. -/
def statOperand : JsVal → Option ℚ
  | .undefined => some 0
  | .val .null => some 0
  | .val (.bool b) => some (if b then 1 else 0)
  | .val (.num q) => some q
  | .val (.str s) => if s = "" then some 0 else none
  | .val (.arr _) => none
  | .val (.obj _) => none

/-- The numbers that an entry other than `null` adds to the two sums. -/
def entryOperands (entry : Json) : Option (ℚ × ℚ) :=
  match entry with
  | .null => none
  | _ =>
    match statOperand (entry.field "confidence"), statOperand (entry.field "duration") with
    | some c, some d => some (c, d)
    | _, _ => none

/-- The numbers that the entries of a history add to the two sums, where
every entry gives numbers. -/
def statOperands : List Json → Option (List (ℚ × ℚ))
  | [] => some []
  | entry :: rest =>
    match entryOperands entry, statOperands rest with
    | some o, some os => some (o :: os)
    | _, _ => none

/-- The value of `reduce((sum, x) => sum + x, 0)`: the sum accumulated in
order from 0, each addition rounded. -/
def doubleSum (xs : List ℚ) : JsNumber := xs.foldl JsNumber.add (.finite 0)

/-- The value of `reduce(...) / history.length`. -/
def doubleMean (xs : List ℚ) : JsNumber := (doubleSum xs).divNat xs.length

/-- The texts written by the body of `updateStats()` for the numbers that the
entries add. -/
def statsOf (operands : List (ℚ × ℚ)) : Stats :=
  if operands.length > 0 then
    { totalConversions := toString operands.length
      avgAccuracy := ((doubleMean (operands.map Prod.fst)).mulNat 100).round.text ++ "%"
      avgTime := (doubleMean (operands.map Prod.snd)).toFixed1 ++ "s" }
  else
    { totalConversions := toString operands.length, avgAccuracy := "0%", avgTime := "0s" }

/-- The method `updateStats()` of `navigation.js`, on the item
`brailleHistory`: the texts it writes, or the exception that leaves it. The
result is `none` where the stored value is not an array whose entries give
numbers, which the embedding does not cover. -/
def updateStats (item : Option (Stored Json)) : Except JsError (Option Stats) := do
  let history ← parseItemOr item (.arr [])
  match history with
  | .null => .error (.typeError (.cannotRead "length"))
  | .arr entries =>
    if entries.any (fun entry => match entry with | .null => true | _ => false) then
      .error (.typeError (.cannotRead "confidence"))
    else pure ((statOperands entries).map statsOf)
  | _ => pure none

/-- The mean of a list of rationals, computed exactly. -/
def exactMean (xs : List ℚ) : ℚ := xs.sum / xs.length

/-- The decimal text of the integer nearest to `q`, the larger of two equally
near: what the specification calls `q` rounded to the nearest integer. -/
def nearestIntegerText (q : ℚ) : String := toString ⌊q + 1 / 2⌋

/-- The text of `q` with exactly one decimal place, the tenths nearest to the
magnitude of `q` and the larger of two equally near: what the specification
calls `q` to one decimal place. -/
def oneDecimalText (q : ℚ) : String :=
  (if q < 0 then "-" else "") ++
    (toString (⌊|q| * 10 + 1 / 2⌋.toNat / 10) ++ "." ++ toString (⌊|q| * 10 + 1 / 2⌋.toNat % 10))

/-! ## `app.js`: duration text -/

/-- The method `padStart(n, c)` of a string, for a one-character pad. -/
def padStart (s : String) (n : Nat) (c : Char) : String :=
  String.mk (List.replicate (n - s.length) c) ++ s

/-- The function `formatDuration(seconds)` of `app.js` on a non-negative
integer held by a number: the quotient by 60 is rounded to binary64 before
`Math.floor`, the remainder is exact, and both are written as numbers are. -/
def formatDuration (seconds : Nat) : String :=
  (ofRatio seconds 60).floor.text ++ ":" ++ padStart (naturalText (seconds % 60)) 2 '0'

set_option maxRecDepth 100000

/-! ## Properties -/

theorem historyEntry_ok (now : String) (data : Json) (h : data ≠ .null) :
    historyEntry now data = .ok (.obj (("timestamp", .str now) ::
      (stringifyProp "text" (data.field "text") ++
        stringifyProp "confidence" (data.field "confidence") ++
        stringifyProp "duration" (data.field "duration")))) := by
  cases data <;> first | exact absurd rfl h | rfl

theorem historyEntry_null (now : String) :
    historyEntry now .null = .error (.typeError (.cannotRead "text")) := rfl

theorem saveToHistory_arr (entries : List Json) (now : String) (data entry : Json)
    (h : historyEntry now data = .ok entry) :
    saveToHistory (some (.json (.arr entries))) now data =
      .ok (some (.json (.arr (if (entry :: entries).length > 10
        then (entry :: entries).dropLast else entry :: entries)))) := by
  simp [saveToHistory, parseItemOr, h, bind, Except.bind, pure, Except.pure]

theorem saveToHistory_missing (now : String) (data entry : Json)
    (h : historyEntry now data = .ok entry) :
    saveToHistory none now data = .ok (some (.json (.arr [entry]))) := by
  simp [saveToHistory, parseItemOr, h, bind, Except.bind, pure, Except.pure]

/-- C1: `handleFile` accepts a file (it becomes the selected file and no error
is shown) exactly when its declared type is one of the six allowed image types
and its size is at most 10 * 1024 * 1024 bytes; in every other case an error
is shown and the selected file is still the previous one. -/
theorem handleFile_accepts_iff (p : Option File) (file : File) :
    ((handleFile p file).selectedFile = some file ∧ (handleFile p file).shown = none ↔
      (file.type ∈ ["image/png", "image/jpeg", "image/jpg", "image/bmp", "image/tiff",
          "image/webp"] ∧ file.size ≤ 10 * 1024 * 1024)) ∧
    (¬ (file.type ∈ ["image/png", "image/jpeg", "image/jpg", "image/bmp", "image/tiff",
          "image/webp"] ∧ file.size ≤ 10 * 1024 * 1024) →
      (handleFile p file).shown ≠ none ∧ (handleFile p file).selectedFile = p) := by
  by_cases ht : file.type ∈ allowedTypes
  · by_cases hs : file.size > 10 * 1024 * 1024
    · have hf : handleFile p file = { selectedFile := p, shown := some ("File Too Large",
          "Please select an image smaller than 10MB") } := by
        unfold handleFile
        rw [if_neg (not_not.mpr ht), if_pos hs]
      have hns : ¬ file.size ≤ 10 * 1024 * 1024 := Nat.not_le.mpr hs
      rw [hf]
      exact ⟨⟨fun h => absurd h.2 (by simp), fun h => absurd h.2 hns⟩, fun _ => ⟨by simp, rfl⟩⟩
    · have hf : handleFile p file = { selectedFile := some file, shown := none } := by
        unfold handleFile
        rw [if_neg (not_not.mpr ht), if_neg hs]
      have hle : file.size ≤ 10 * 1024 * 1024 := Nat.le_of_not_gt hs
      rw [hf]
      exact ⟨⟨fun _ => ⟨ht, hle⟩, fun _ => ⟨rfl, rfl⟩⟩, fun h => absurd ⟨ht, hle⟩ h⟩
  · have hf : handleFile p file = { selectedFile := p, shown := some ("Invalid File Type",
        "Please select a valid image file (PNG, JPG, BMP, TIFF, WEBP)") } := by
      unfold handleFile
      rw [if_pos ht]
    rw [hf]
    exact ⟨⟨fun h => absurd h.2 (by simp), fun h => absurd h.1 ht⟩, fun _ => ⟨by simp, rfl⟩⟩

theorem historyCapped_missing : HistoryCapped none :=
  ⟨[], rfl, Nat.zero_le _⟩

theorem persistedHistory_eq_some {item : Option (Stored Json)} {entries : List Json}
    (h : persistedHistory item = some entries) :
    parseItemOr item (.arr []) = .ok (.arr entries) := by
  unfold persistedHistory at h
  split at h
  · next es heq => rw [heq]; cases h; rfl
  · cases h

theorem length_unshift_pop_le (entry : Json) (entries : List Json) (h : entries.length ≤ 10) :
    (if (entry :: entries).length > 10 then (entry :: entries).dropLast
      else entry :: entries).length ≤ 10 := by
  split
  · rw [List.length_dropLast, List.length_cons]; omega
  · next hn => exact Nat.le_of_not_gt hn

theorem saveToHistory_capped (item : Option (Stored Json)) (now : String) (data : Json)
    (item' : Option (Stored Json)) (hcap : HistoryCapped item)
    (h : saveToHistory item now data = .ok item') : HistoryCapped item' := by
  obtain ⟨entries, hp, hlen⟩ := hcap
  have hparse := persistedHistory_eq_some hp
  cases hd : historyEntry now data with
  | error e =>
    simp [saveToHistory, hparse, hd, bind, Except.bind] at h
  | ok entry =>
    simp [saveToHistory, hparse, hd, bind, Except.bind, pure, Except.pure] at h
    subst h
    exact ⟨_, rfl, length_unshift_pop_le entry entries hlen⟩

theorem run_capped (item : Option (Stored Json)) (call : HistoryCall) (hcap : HistoryCapped item) :
    HistoryCapped (call.run item) := by
  cases call with
  | saveToHistory now data =>
    cases h : BrailleVoice.saveToHistory item now data with
    | error e => simp only [HistoryCall.run, h]; exact hcap
    | ok item' =>
      simp only [HistoryCall.run, h]
      exact saveToHistory_capped item now data item' hcap h
  | clearHistory confirmed =>
    cases confirmed
    · exact hcap
    · exact historyCapped_missing

theorem runHistoryCalls_capped (calls : List HistoryCall) :
    ∀ item, HistoryCapped item → HistoryCapped (runHistoryCalls item calls) := by
  induction calls with
  | nil => intro item h; exact h
  | cons call rest ih =>
    intro item h
    exact ih (call.run item) (run_capped item call h)

/-- C2: after any sequence of `saveToHistory` and `clearHistory` calls, with any
conversion results, clock readings and confirmation answers, started on a
missing history item, the persisted history is a sequence of at most 10
entries. -/
theorem history_length_le_ten (calls : List HistoryCall) :
    ∃ entries, persistedHistory (runHistoryCalls none calls) = some entries ∧
      entries.length ≤ 10 :=
  runHistoryCalls_capped calls none historyCapped_missing

theorem saveToHistory_of_persisted (item : Option (Stored Json)) (entries : List Json)
    (now : String) (data entry : Json) (hp : persistedHistory item = some entries)
    (h : historyEntry now data = .ok entry) :
    saveToHistory item now data =
      .ok (some (.json (.arr (if (entry :: entries).length > 10
        then (entry :: entries).dropLast else entry :: entries)))) := by
  have hparse := persistedHistory_eq_some hp
  simp [saveToHistory, hparse, h, bind, Except.bind, pure, Except.pure]

/-- C3: on every store whose persisted history is `h` (the item is missing or
empty, where `h` is empty, or holds the array `h`), with `h` of at most 10
entries, `saveToHistory(r)` with a result `r` other than `null` stores the new
entry (timestamp of the call, and the text, confidence and duration of `r`) at
index 0, followed by the entries of `h` in their order; the last entry of `h`
is dropped exactly when `h` held 10 entries. -/
theorem saveToHistory_prepends (item : Option (Stored Json)) (h : List Json) (now : String)
    (r : Json) (hitem : persistedHistory item = some h) (hlen : h.length ≤ 10)
    (hr : r ≠ .null) :
    ∃ entry, historyEntry now r = .ok entry ∧
      entry.field "timestamp" = .val (.str now) ∧
      entry.field "text" = r.field "text" ∧
      entry.field "confidence" = r.field "confidence" ∧
      entry.field "duration" = r.field "duration" ∧
      saveToHistory item now r =
        .ok (some (.json (.arr (entry :: (if h.length = 10 then h.dropLast else h))))) ∧
      persistedHistory (some (.json (.arr (entry :: (if h.length = 10 then h.dropLast else h)))))
        = some (entry :: (if h.length = 10 then h.dropLast else h)) := by
  refine ⟨_, historyEntry_ok now r hr, ?_, ?_, ?_, ?_, ?_, rfl⟩
  · simp [Json.field, lookup]
  · cases ht : r.field "text" <;> cases hc : r.field "confidence" <;>
      cases hd : r.field "duration" <;> simp [Json.field, lookup, stringifyProp]
  · cases ht : r.field "text" <;> cases hc : r.field "confidence" <;>
      cases hd : r.field "duration" <;> simp [Json.field, lookup, stringifyProp]
  · cases ht : r.field "text" <;> cases hc : r.field "confidence" <;>
      cases hd : r.field "duration" <;> simp [Json.field, lookup, stringifyProp]
  · rw [saveToHistory_of_persisted item h now r _ hitem (historyEntry_ok now r hr)]
    by_cases h10 : h.length = 10
    · have hne : h ≠ [] := by
        intro hnil
        rw [hnil] at h10
        exact absurd h10 (by decide)
      rw [if_pos (by rw [List.length_cons]; omega), if_pos h10]
      cases h with
      | nil => exact absurd rfl hne
      | cons a t => rfl
    · rw [if_neg (by rw [List.length_cons]; omega), if_neg h10]

theorem lookup_setOwn_same (k : String) (v : Json) (settings : Settings) :
    lookup k (setOwn k v settings) = .val v := by
  induction settings with
  | nil => simp [setOwn, lookup]
  | cons kv rest ih =>
    obtain ⟨k', v'⟩ := kv
    by_cases hk : k' = k
    · simp [setOwn, lookup, hk]
    · simp [setOwn, lookup, hk, ih]

theorem lookup_setOwn_other (k k2 : String) (v : Json) (settings : Settings) (h : k2 ≠ k) :
    lookup k2 (setOwn k v settings) = lookup k2 settings := by
  induction settings with
  | nil => simp [setOwn, lookup, Ne.symm h]
  | cons kv rest ih =>
    obtain ⟨k', v'⟩ := kv
    by_cases hk : k' = k
    · subst hk
      simp [setOwn, lookup, Ne.symm h]
    · by_cases hk2 : k' = k2
      · subst hk2
        simp [setOwn, lookup, hk]
      · simp [setOwn, lookup, hk, hk2, ih]

theorem assign_eq_setOwn (settings : Settings) (k : String) (v : Json) (h : k ≠ "__proto__") :
    assign settings k v = setOwn k v settings := by
  unfold assign
  rw [if_neg (fun hc => h hc.1)]

theorem saveSetting_json (settings : Settings) (k : String) (v : Json) :
    saveSetting (some (.json settings)) k v = .ok (some (.json (assign settings k v))) := rfl

/-- C4: a stored record that parses but has neither a token nor a user, and
a 2xx login reply that has neither, leave the token and the user `undefined`,
and `isAuthenticated()` returns true although neither is present. -/
theorem isAuthenticated_true_without_token_or_user :
    (loadStoredAuth (AuthManager.initial (some (.json (.obj []))))).1.token = .undefined ∧
    (loadStoredAuth (AuthManager.initial (some (.json (.obj []))))).1.currentUser = .undefined ∧
    isAuthenticated (loadStoredAuth (AuthManager.initial (some (.json (.obj []))))).1 = true ∧
    (loadStoredAuth (AuthManager.initial (some (.json (.obj []))))).1.token.present = false ∧
    (login (AuthManager.initial none) "u" "p" (.response true (.ok (.obj [])))).1.token
      = .undefined ∧
    isAuthenticated
      (login (AuthManager.initial none) "u" "p" (.response true (.ok (.obj [])))).1 = true :=
  ⟨rfl, rfl, rfl, rfl, rfl, rfl⟩

/-- C5: `navigateToPage` with the unrecognized identifier `profile`, in the
state the constructor sets, makes `profile` the current page whatever the
page holds; where an element `profile-page` exists the fragment becomes
`profile` too. -/
theorem navigateToPage_unrecognized_becomes_current :
    isValidPage "profile" = false ∧
    (∀ dom : Page, (navigateToPage dom (Router.initial "") "profile").currentPage = "profile") ∧
    (navigateToPage { pageIds := ["converter", "profile"], hasSidebar := true, innerWidth := 1280 }
      (Router.initial "") "profile").fragment = "profile" := by
  refine ⟨by decide, ?_, by decide⟩
  intro dom
  unfold navigateToPage
  cases showPage dom "profile" with
  | error e => rfl
  | ok u =>
    by_cases hw : dom.innerWidth ≤ 1024
    · by_cases hs : dom.hasSidebar = true
      · simp [hw, closeSidebar, hs]
      · simp [hw, closeSidebar, hs]
    · simp [hw]

/-- C6 as stated fails: on the empty settings record, `saveSetting` with the
key `__proto__` stores a record that does not map the key to the value. -/
theorem saveSetting_proto_not_stored :
    ¬ (∀ (settings : Settings) (k : String) (v : Json),
        ∃ settings', saveSetting (some (.json settings)) k v = .ok (some (.json settings')) ∧
          loadSettings (some (.json settings')) = .ok settings' ∧
          lookup k settings' = .val v ∧
          ∀ k2, k2 ≠ k → lookup k2 settings' = lookup k2 settings) := by
  intro h
  obtain ⟨settings', hsave, -, hk, -⟩ := h [] "__proto__" (.str "x")
  have hs : settings' = [] := by
    have h1 : saveSetting (some (.json ([] : Settings))) "__proto__" (.str "x") =
        .ok (some (.json [])) := rfl
    rw [h1] at hsave
    injection hsave with h2
    injection h2 with h3
    injection h3 with h4
    exact h4.symm
  rw [hs] at hk
  simp [lookup] at hk

/-- C6, amended: for every settings record, every key other than `__proto__`
and every value, `saveSetting` stores a record that, read back, maps the key to
the value and every other key to what the record mapped it to; saving a
second, distinct key (other than `__proto__`) after it and reading back gives
both values. -/
theorem saveSetting_roundtrip (settings : Settings) (k : String) (v : Json)
    (hk : k ≠ "__proto__") :
    ∃ settings', saveSetting (some (.json settings)) k v = .ok (some (.json settings')) ∧
      loadSettings (some (.json settings')) = .ok settings' ∧
      lookup k settings' = .val v ∧
      (∀ k2, k2 ≠ k → lookup k2 settings' = lookup k2 settings) ∧
      ∀ (k2 : String) (v2 : Json), k2 ≠ k → k2 ≠ "__proto__" →
        ∃ settings'', saveSetting (some (.json settings')) k2 v2 =
            .ok (some (.json settings'')) ∧
          loadSettings (some (.json settings'')) = .ok settings'' ∧
          lookup k settings'' = .val v ∧ lookup k2 settings'' = .val v2 := by
  refine ⟨setOwn k v settings, ?_, rfl, lookup_setOwn_same k v settings,
    fun k2 h2 => lookup_setOwn_other k k2 v settings h2, ?_⟩
  · rw [saveSetting_json, assign_eq_setOwn settings k v hk]
  · intro k2 v2 h2 hp
    refine ⟨setOwn k2 v2 (setOwn k v settings), ?_, rfl, ?_, lookup_setOwn_same k2 v2 _⟩
    · rw [saveSetting_json, assign_eq_setOwn _ k2 v2 hp]
    · rw [lookup_setOwn_other k2 k v2 _ (Ne.symm h2)]
      exact lookup_setOwn_same k v settings

/-- C8: with a password different from its confirmation, the register
operation leaves the session and its stored record as they were, shows
exactly the message "Passwords do not match", and makes no request. -/
theorem registerFormSubmit_mismatch (a : AuthManager)
    (username email password confirmPassword : String) (reply : FetchOutcome)
    (h : password ≠ confirmPassword) :
    (registerFormSubmit a username email password confirmPassword reply).1 = a ∧
    (registerFormSubmit a username email password confirmPassword reply).2 =
      [.showError (.text "Passwords do not match")] ∧
    ∀ e ∈ (registerFormSubmit a username email password confirmPassword reply).2,
      e.isFetch = false := by
  have hr : registerFormSubmit a username email password confirmPassword reply =
      (a, [.showError (.text "Passwords do not match")]) := by
    unfold registerFormSubmit
    rw [if_pos h]
  rw [hr]
  refine ⟨rfl, rfl, ?_⟩
  intro e he
  rw [List.mem_singleton] at he
  rw [he]
  rfl

/-- C9: on a non-2xx reply whose body carries a non-empty string `d` as its
`detail`, `login` shows exactly `d`, returns false, and leaves the token, the
user and the stored record as they were. -/
theorem login_failure_shows_detail (a : AuthManager) (username password d : String)
    (data : Json) (hdetail : data.field "detail" = .val (.str d)) (hd : d ≠ "") :
    (login a username password (.response false (.ok data))).1 = a ∧
    (login a username password (.response false (.ok data))).2.1 =
      [.fetch "/login" [username, password], .showError (.text d)] ∧
    (login a username password (.response false (.ok data))).2.2 = false := by
  have hprop : data.prop "detail" = .ok (.val (.str d)) := by
    cases data with
    | null => simp [Json.field] at hdetail
    | bool b => simp [Json.prop, hdetail]
    | num q => simp [Json.prop, hdetail]
    | str t => simp [Json.prop, hdetail]
    | arr l => simp [Json.prop, hdetail]
    | obj props => simp [Json.prop, hdetail]
  have hl : login a username password (.response false (.ok data)) =
      (a, [.fetch "/login" [username, password], .showError (.text d)], false) := by
    simp [login, hprop, JsVal.truthy, Json.truthy, hd, JsVal.toMessage]
  rw [hl]
  exact ⟨rfl, rfl, rfl⟩

/-- C10 as stated fails: in the state restored from a stored record that has
a user and no token, `logout()` returns at once; the user is still present,
the stored record is still there, and `isAuthenticated()` is true. -/
theorem logout_without_token_keeps_session :
    ¬ (∀ (a : AuthManager) (reply : FetchOutcome),
        (logout a reply).1.token.present = false ∧
        (logout a reply).1.currentUser.present = false ∧
        (logout a reply).1.stored.isNone = true ∧
        isAuthenticated (logout a reply).1 = false) := by
  intro h
  have h4 := (h (loadStoredAuth (AuthManager.initial
    (some (.json (.obj [("user", .obj [("username", .str "u")])]))))).1
    (.response true (.ok .null))).2.2.2
  exact absurd h4 (by decide)

/-- C10, amended: from every state whose token is truthy, and for every
outcome of the request, `logout()` leaves the token and the user `null`, the
stored record removed, and `isAuthenticated()` false. -/
theorem logout_clears_session (a : AuthManager) (reply : FetchOutcome)
    (h : a.token.truthy = true) :
    (logout a reply).1.token = .val .null ∧
    (logout a reply).1.currentUser = .val .null ∧
    (logout a reply).1.token.present = false ∧
    (logout a reply).1.currentUser.present = false ∧
    (logout a reply).1.stored = none ∧
    isAuthenticated (logout a reply).1 = false := by
  have hl : (logout a reply).1 = clearAuth a := by
    unfold logout
    rw [if_neg (by rw [h]; decide)]
    cases reply <;> rfl
  rw [hl]
  exact ⟨rfl, rfl, rfl, rfl, rfl, rfl⟩

theorem validateTokenSettle_of_authenticated (a : AuthManager) (reply : FetchOutcome)
    (h : reply.authenticated = true) : validateTokenSettle a reply = (a, [], true) := by
  cases reply with
  | networkError m => cases h
  | response ok body =>
    cases ok with
    | false => cases h
    | true =>
      cases body with
      | error m => cases h
      | ok data =>
        cases data <;>
          first
          | cases h
          | (simp only [FetchOutcome.authenticated] at h
             simp [validateTokenSettle, Json.prop, h])

theorem validateTokenSettle_of_not_authenticated (a : AuthManager) (reply : FetchOutcome)
    (h : reply.authenticated = false) :
    (validateTokenSettle a reply).1 = clearAuth a ∧ (validateTokenSettle a reply).2.2 = false := by
  cases reply with
  | networkError m => exact ⟨rfl, rfl⟩
  | response ok body =>
    cases ok with
    | false => exact ⟨rfl, rfl⟩
    | true =>
      cases body with
      | error m => exact ⟨rfl, rfl⟩
      | ok data =>
        cases data <;>
          first
          | exact ⟨rfl, rfl⟩
          | (simp only [FetchOutcome.authenticated] at h
             simp [validateTokenSettle, Json.prop, h])

/-- C11: `validateToken()` returns true exactly when the reply is a 2xx
response whose body parses and carries a positive `authenticated` flag, and
then the session is what it was; for every other outcome (non-2xx, negative
flag, network or parse error) it returns false and the session is destroyed:
token and user `null`, stored record removed. -/
theorem validateToken_trust_signal (a : AuthManager) (reply : FetchOutcome) :
    ((validateToken a reply).2.2 = true ↔ reply.authenticated = true) ∧
    (reply.authenticated = true → (validateToken a reply).1 = a) ∧
    (reply.authenticated = false →
      (validateToken a reply).2.2 = false ∧
      (validateToken a reply).1.token = .val .null ∧
      (validateToken a reply).1.currentUser = .val .null ∧
      (validateToken a reply).1.token.present = false ∧
      (validateToken a reply).1.currentUser.present = false ∧
      (validateToken a reply).1.stored = none) := by
  cases h : reply.authenticated with
  | true =>
    have hs := validateTokenSettle_of_authenticated a reply h
    refine ⟨?_, ?_, ?_⟩
    · simp [validateToken, hs]
    · intro _
      simp [validateToken, hs]
    · intro hc
      cases hc
  | false =>
    obtain ⟨h1, h2⟩ := validateTokenSettle_of_not_authenticated a reply h
    have hstate : (validateToken a reply).1 = clearAuth a := h1
    have hret : (validateToken a reply).2.2 = false := h2
    refine ⟨?_, ?_, ?_⟩
    · rw [hret]
    · intro hc
      cases hc
    · intro _
      rw [hstate]
      exact ⟨hret, rfl, rfl, rfl, rfl, rfl⟩

/-- C12 as stated fails: in the session restored from a stored record with a
token and a `null` user, `isAuthenticated()` is false and `getAuthHeaders()`
still returns the bearer header. -/
theorem getAuthHeaders_not_by_isAuthenticated :
    ¬ (∀ a : AuthManager,
        (isAuthenticated a = true → getAuthHeaders a = [("Authorization", .bearer a.token)]) ∧
        (isAuthenticated a = false → getAuthHeaders a = [])) := by
  intro h
  have h2 := (h (loadStoredAuth (AuthManager.initial
    (some (.json (.obj [("token", .str "t"), ("user", .null)]))))).1).2 rfl
  have h3 : getAuthHeaders (loadStoredAuth (AuthManager.initial
      (some (.json (.obj [("token", .str "t"), ("user", .null)]))))).1 =
      [("Authorization", .bearer (.val (.str "t")))] := rfl
  rw [h3] at h2
  cases h2

/-- C12, amended: `getAuthHeaders()` returns the bearer header of the token
when the token is truthy and the empty set when it is not; so it returns the
header when `isAuthenticated()` is true with a truthy token (as whenever the
token is truthy and a user is present), and the empty set when the token is
`null`, where `isAuthenticated()` is false. -/
theorem getAuthHeaders_by_token (a : AuthManager) :
    (a.token.truthy = true → getAuthHeaders a = [("Authorization", .bearer a.token)]) ∧
    (a.token.truthy = false → getAuthHeaders a = []) ∧
    (a.token.truthy = true → a.currentUser.present = true → isAuthenticated a = true) ∧
    (a.token = .val .null → isAuthenticated a = false ∧ getAuthHeaders a = []) := by
  refine ⟨?_, ?_, ?_, ?_⟩
  · intro h
    simp [getAuthHeaders, h]
  · intro h
    simp [getAuthHeaders, h]
  · intro ht hu
    have h1 : a.token.notNull = true := by
      cases htok : a.token with
      | undefined => rfl
      | val v => cases v <;> first | rfl | (rw [htok] at ht; cases ht)
    have h2 : a.currentUser.notNull = true := by
      cases hus : a.currentUser with
      | undefined => rfl
      | val v => cases v <;> first | rfl | (rw [hus] at hu; cases hu)
    simp [isAuthenticated, h1, h2]
  · intro h
    simp [isAuthenticated, getAuthHeaders, h, JsVal.notNull, JsVal.truthy, Json.truthy]

theorem sessionPaired_clearAuth (a : AuthManager) : SessionPaired (clearAuth a) :=
  ⟨rfl, trivial⟩

theorem sessionPaired_storeAuth (a : AuthManager) (token user : JsVal)
    (h : token.present = user.present) : SessionPaired (storeAuth a token user) := by
  refine ⟨h, ?_⟩
  show PairedFields "token" (.obj (stringifyProp "token" token ++ stringifyProp "user" user))
  unfold PairedFields
  cases token with
  | undefined =>
    cases user with
    | undefined => rfl
    | val u => simpa [Json.field, stringifyProp, lookup] using h
  | val t =>
    cases user with
    | undefined => simpa [Json.field, stringifyProp, lookup] using h
    | val u => simpa [Json.field, stringifyProp, lookup] using h

theorem sessionPaired_loadStoredAuth (a : AuthManager) (h : SessionPaired a) :
    SessionPaired (loadStoredAuth a).1 := by
  cases hst : a.stored with
  | none => simpa [loadStoredAuth, hst] using h
  | some item =>
    cases item with
    | empty => simpa [loadStoredAuth, hst] using h
    | malformed =>
      simp only [loadStoredAuth, hst]
      exact sessionPaired_clearAuth a
    | json auth =>
      have hrec : PairedFields "token" auth := by
        have h2 := h.2
        rw [hst] at h2
        exact h2
      cases hp : auth.prop "token" with
      | error e =>
        simp only [loadStoredAuth, hst, hp]
        exact sessionPaired_clearAuth a
      | ok token =>
        have htok : token = auth.field "token" := by
          cases auth <;> simp [Json.prop] at hp <;> exact hp.symm
        simp only [loadStoredAuth, hst, hp]
        refine ⟨?_, ?_⟩
        · rw [htok]
          exact hrec
        · exact hrec

theorem sessionPaired_validateToken (a : AuthManager) (reply : FetchOutcome)
    (h : SessionPaired a) : SessionPaired (validateToken a reply).1 := by
  cases hr : reply.authenticated with
  | true =>
    have hs := validateTokenSettle_of_authenticated a reply hr
    simpa [validateToken, hs] using h
  | false =>
    have hs := (validateTokenSettle_of_not_authenticated a reply hr).1
    have hstate : (validateToken a reply).1 = clearAuth a := hs
    rw [hstate]
    exact sessionPaired_clearAuth a

theorem sessionPaired_login (a : AuthManager) (username password : String)
    (reply : FetchOutcome) (h : SessionPaired a) (hr : PairedReply reply) :
    SessionPaired (login a username password reply).1 := by
  cases reply with
  | networkError m => exact h
  | response ok body =>
    cases body with
    | error m => cases ok <;> exact h
    | ok data =>
      cases ok with
      | false =>
        cases hd : data.prop "detail" <;> simpa [login, hd] using h
      | true =>
        cases hp : data.prop "access_token" with
        | error e => simpa [login, hp] using h
        | ok token =>
          have htok : token = data.field "access_token" := by
            cases data <;> simp [Json.prop] at hp <;> exact hp.symm
          have hpair : SessionPaired (storeAuth a token (data.field "user")) := by
            apply sessionPaired_storeAuth
            rw [htok]
            exact hr
          cases hu : updateUI (storeAuth a token (data.field "user")) <;>
            simpa [login, hp, hu] using hpair

theorem sessionPaired_register (a : AuthManager) (username email password : String)
    (reply : FetchOutcome) (h : SessionPaired a) (hr : PairedReply reply) :
    SessionPaired (register a username email password reply).1 := by
  cases reply with
  | networkError m => exact h
  | response ok body =>
    cases body with
    | error m => cases ok <;> exact h
    | ok data =>
      cases ok with
      | false =>
        cases hd : data.prop "detail" <;> simpa [register, hd] using h
      | true =>
        cases hp : data.prop "access_token" with
        | error e => simpa [register, hp] using h
        | ok token =>
          have htok : token = data.field "access_token" := by
            cases data <;> simp [Json.prop] at hp <;> exact hp.symm
          have hpair : SessionPaired (storeAuth a token (data.field "user")) := by
            apply sessionPaired_storeAuth
            rw [htok]
            exact hr
          cases hu : updateUI (storeAuth a token (data.field "user")) <;>
            simpa [register, hp, hu] using hpair

theorem sessionPaired_logout (a : AuthManager) (reply : FetchOutcome) (h : SessionPaired a) :
    SessionPaired (logout a reply).1 := by
  unfold logout
  split
  · exact h
  · cases reply <;> exact sessionPaired_clearAuth a

theorem sessionPaired_run (a : AuthManager) (call : AuthCall) (h : SessionPaired a)
    (hc : call.Paired) : SessionPaired (call.run a) := by
  cases call with
  | loadStoredAuth => exact sessionPaired_loadStoredAuth a h
  | validateToken reply => exact sessionPaired_validateToken a reply h
  | login username password reply => exact sessionPaired_login a username password reply h hc
  | register username email password reply =>
    exact sessionPaired_register a username email password reply h hc
  | logout reply => exact sessionPaired_logout a reply h

theorem sessionPaired_runAuthCalls (calls : List AuthCall) :
    ∀ a, SessionPaired a → (∀ c ∈ calls, c.Paired) → SessionPaired (runAuthCalls a calls) := by
  induction calls with
  | nil => intro a h _; exact h
  | cons call rest ih =>
    intro a h hc
    exact ih (call.run a)
      (sessionPaired_run a call h (hc call (List.mem_cons_self call rest)))
      (fun c hmem => hc c (List.mem_cons_of_mem call hmem))

/-- C13 as stated fails: `loadStoredAuth` on a stored record that has a token
and no user leaves the token present and the user absent. -/
theorem loadStoredAuth_token_without_user :
    ¬ (∀ (stored : Option (Stored Json)) (calls : List AuthCall),
        (runAuthCalls (AuthManager.initial stored) calls).token.present =
          (runAuthCalls (AuthManager.initial stored) calls).currentUser.present) := by
  intro h
  have h1 := h (some (.json (.obj [("token", .str "t")]))) [.loadStoredAuth]
  exact absurd h1 (by decide)

/-- C13, amended: when the stored record read at construction and every 2xx
reply to `login` and `register` carry a token and a user that are both
present or both absent, then after any sequence of `loadStoredAuth`,
`validateToken`, `login`, `register` and `logout` calls the token and the user
are both present or both absent; and `clearAuth`, the one path that destroys
the session, sets both to `null` and removes the stored record. -/
theorem session_token_user_paired (stored : Option (Stored Json)) (calls : List AuthCall)
    (hs : PairedRecord stored) (hc : ∀ c ∈ calls, c.Paired) :
    (runAuthCalls (AuthManager.initial stored) calls).token.present =
      (runAuthCalls (AuthManager.initial stored) calls).currentUser.present ∧
    ∀ a : AuthManager, (clearAuth a).token = .val .null ∧
      (clearAuth a).currentUser = .val .null ∧ (clearAuth a).stored = none :=
  ⟨(sessionPaired_runAuthCalls calls (AuthManager.initial stored) ⟨rfl, hs⟩ hc).1,
    fun _ => ⟨rfl, rfl, rfl⟩⟩

theorem navigateToPage_currentPage (dom : Page) (r : Router) (page : String) :
    (navigateToPage dom r page).currentPage = page := by
  unfold navigateToPage
  cases showPage dom page with
  | error e => rfl
  | ok u =>
    by_cases hw : dom.innerWidth ≤ 1024
    · by_cases hs : dom.hasSidebar = true
      · simp [hw, closeSidebar, hs]
      · simp [hw, closeSidebar, hs]
    · simp [hw]

theorem navigateToPage_fragment (dom : Page) (r : Router) (page : String)
    (h : r.fragment = page) : (navigateToPage dom r page).fragment = page := by
  unfold navigateToPage
  cases showPage dom page with
  | error e => exact h
  | ok u =>
    by_cases hw : dom.innerWidth ≤ 1024
    · by_cases hs : dom.hasSidebar = true
      · simp [hw, closeSidebar, hs]
      · simp [hw, closeSidebar, hs]
    · simp [hw]

theorem isValidPage_ne_empty (f : String) (h : isValidPage f = true) : f ≠ "" := by
  intro he
  rw [he] at h
  exact absurd h (by decide)

/-- C14: with the fragment `f` in the URL, `handleHashChange` leaves the router
in exactly the state of `navigateToPage(f)` when `f` is one of the six
recognized pages (current page `f`, fragment `f`), and leaves the router as it
was, with no fallback page, when `f` is empty or not recognized. -/
theorem handleHashChange_follows_fragment (dom : Page) (r : Router) (f : String) :
    (isValidPage f = true →
      handleHashChange dom { r with fragment := f } =
        navigateToPage dom { r with fragment := f } f ∧
      (handleHashChange dom { r with fragment := f }).currentPage = f ∧
      (handleHashChange dom { r with fragment := f }).fragment = f) ∧
    (f = "" ∨ isValidPage f = false →
      handleHashChange dom { r with fragment := f } = { r with fragment := f }) := by
  constructor
  · intro hv
    have hne := isValidPage_ne_empty f hv
    have hh : handleHashChange dom { r with fragment := f } =
        navigateToPage dom { r with fragment := f } f := by
      unfold handleHashChange
      rw [if_pos ⟨hne, hv⟩]
    rw [hh]
    exact ⟨rfl, navigateToPage_currentPage dom _ f, navigateToPage_fragment dom _ f rfl⟩
  · intro hc
    unfold handleHashChange
    rw [if_neg]
    rintro ⟨hne, hv⟩
    rcases hc with he | hnv
    · exact hne he
    · rw [hnv] at hv
      cases hv

/-- C15 as stated fails: the empty string is a stored text that does not
parse, and `loadStoredAuth` leaves it in storage. -/
theorem loadStoredAuth_keeps_empty_record :
    ¬ (∀ item : Stored Json, item.unparsable = true →
        (loadStoredAuth (AuthManager.initial (some item))).1.stored = none) := by
  intro h
  have h1 := h .empty rfl
  cases h1

/-- C15, amended: for every non-empty stored session text that does not parse,
`loadStoredAuth` ends in the state it ends in when nothing is stored (token
and user `null`, `isAuthenticated()` false), removes the stored record, and
makes no request. -/
theorem loadStoredAuth_malformed_cleared (item : Stored Json)
    (hu : item.unparsable = true) (hne : item ≠ .empty) :
    (loadStoredAuth (AuthManager.initial (some item))).1 =
      (loadStoredAuth (AuthManager.initial none)).1 ∧
    (loadStoredAuth (AuthManager.initial (some item))).1.token = .val .null ∧
    (loadStoredAuth (AuthManager.initial (some item))).1.currentUser = .val .null ∧
    isAuthenticated (loadStoredAuth (AuthManager.initial (some item))).1 = false ∧
    (loadStoredAuth (AuthManager.initial (some item))).1.stored = none ∧
    ∀ e ∈ (loadStoredAuth (AuthManager.initial (some item))).2, e.isFetch = false := by
  cases item with
  | json v => cases hu
  | empty => exact absurd rfl hne
  | malformed =>
    refine ⟨rfl, rfl, rfl, rfl, rfl, ?_⟩
    intro e he
    have he' : e ∈ [Effect.consoleError] := he
    rw [List.mem_singleton] at he'
    rw [he']
    rfl

/-- C16: on a non-empty stored text that does not parse, `saveToHistory`,
`saveSetting` and `loadSettings` are left through the SyntaxError of
`JSON.parse` instead of behaving as on a missing record, and the text stays
in storage after the failed `saveToHistory`; on a missing record the same calls
succeed. -/
theorem unparsable_record_throws :
    (∃ e, saveToHistory (some .malformed) "2024-05-01T10:00:00.000Z"
      (.obj [("text", .str "a")]) = .error e) ∧
    (∃ item, saveToHistory none "2024-05-01T10:00:00.000Z"
      (.obj [("text", .str "a")]) = .ok item) ∧
    (HistoryCall.saveToHistory "2024-05-01T10:00:00.000Z" (.obj [("text", .str "a")])).run
      (some .malformed) = some .malformed ∧
    persistedHistory (some .malformed) = none ∧
    (∃ e, saveSetting (some .malformed) "theme" (.str "dark") = .error e) ∧
    (∃ item, saveSetting none "theme" (.str "dark") = .ok item) ∧
    (∃ e, loadSettings (some .malformed) = .error e) ∧
    loadSettings none = .ok [] :=
  ⟨⟨_, rfl⟩, ⟨_, rfl⟩, rfl, rfl, ⟨_, rfl⟩, ⟨_, rfl⟩, ⟨_, rfl⟩, rfl⟩

/-- C17 as stated fails: on a network error `login` shows the message of the
exception, not the text "Login failed". -/
theorem login_network_error_shows_exception_text :
    ¬ (∀ (a : AuthManager) (username password message : String),
        (login a username password (.networkError message)).2.1 =
          [.fetch "/login" [username, password], .showError (.text "Login failed")]) := by
  intro h
  have h1 := h (AuthManager.initial none) "u" "p" "Failed to fetch"
  have h2 : (login (AuthManager.initial none) "u" "p" (.networkError "Failed to fetch")).2.1 =
      [.fetch "/login" ["u", "p"], .showError (.text "Failed to fetch")] := rfl
  rw [h2] at h1
  injection h1 with _ h3
  injection h3 with h4 _
  injection h4 with h5
  injection h5 with h6
  exact absurd h6 (by decide)

/-- C17, amended: in each failure without a server detail (a non-2xx reply
whose body parses, whatever it holds, a body that does not parse, a network
error) `login` returns false and leaves the session as it was; it shows
"Login failed" on a non-2xx reply whose body parses to a value other than
`null` without a truthy `detail`, and it shows the message of the exception
on a network error. -/
theorem login_failure_without_detail (a : AuthManager) (username password : String) :
    (∀ data : Json,
      (login a username password (.response false (.ok data))).1 = a ∧
      (login a username password (.response false (.ok data))).2.2 = false) ∧
    (∀ data : Json, data ≠ .null → (data.field "detail").truthy = false →
      login a username password (.response false (.ok data)) =
        (a, [.fetch "/login" [username, password], .showError (.text "Login failed")], false)) ∧
    (∀ (ok : Bool) (message : String),
      (login a username password (.response ok (.error message))).1 = a ∧
      (login a username password (.response ok (.error message))).2.2 = false) ∧
    (∀ message : String,
      login a username password (.networkError message) =
        (a, [.fetch "/login" [username, password], .showError (.text message)], false)) := by
  refine ⟨?_, ?_, ?_, ?_⟩
  · intro data
    cases hp : data.prop "detail" <;> simp [login, hp]
  · intro data hnull hd
    have hp : data.prop "detail" = .ok (data.field "detail") := by
      cases data <;> first | exact absurd rfl hnull | rfl
    simp [login, hp, hd]
  · intro ok message
    cases ok <;> exact ⟨rfl, rfl⟩
  · intro message
    rfl

theorem padStart_two_digits (n : Nat) (h : n < 60) :
    padStart (toString n) 2 '0' = String.mk [Nat.digitChar (n / 10), Nat.digitChar (n % 10)] := by
  interval_cases n <;> decide

theorem bitLengthAux_le (fuel : ℕ) : ∀ n k : ℕ, n < 2 ^ k → bitLengthAux fuel n ≤ k := by
  induction fuel with
  | zero =>
    intro n k _
    simp [bitLengthAux]
  | succ f ih =>
    intro n k h
    unfold bitLengthAux
    by_cases hn : n = 0
    · rw [if_pos hn]
      exact Nat.zero_le k
    · rw [if_neg hn]
      cases k with
      | zero =>
        rw [pow_zero] at h
        omega
      | succ k' =>
        have h2 : n / 2 < 2 ^ k' := by
          rw [pow_succ] at h
          omega
        exact Nat.succ_le_succ (ih _ _ h2)

theorem binade_le (n d : ℕ) : binade n d ≤ (bitLength n : ℤ) - (bitLength d : ℤ) := by
  show (if d * 2 ^ ((bitLength n : ℤ) - (bitLength d : ℤ)).toNat ≤
      n * 2 ^ (-((bitLength n : ℤ) - (bitLength d : ℤ))).toNat
    then (bitLength n : ℤ) - (bitLength d : ℤ)
    else (bitLength n : ℤ) - (bitLength d : ℤ) - 1) ≤ _
  split <;> omega

theorem quantumExp_sixtieth_le (s : ℕ) (hs : s < 2 ^ 53) : quantumExp s 60 ≤ -5 := by
  have h1 : bitLength s ≤ 53 := bitLengthAux_le s s 53 hs
  have h2 : bitLength 60 = 6 := by decide
  have h3 := binade_le s 60
  rw [h2] at h3
  unfold quantumExp
  omega

theorem roundHalfEven_bounds (n d : ℕ) :
    n / d ≤ roundHalfEven n d ∧ 2 * (d * roundHalfEven n d) ≤ 2 * n + d := by
  have hdm : d * (n / d) + n % d = n := Nat.div_add_mod n d
  have hexp : d * (n / d + 1) = d * (n / d) + d := by ring
  unfold roundHalfEven
  split
  · exact ⟨le_refl _, by omega⟩
  · split
    · exact ⟨Nat.le_succ _, by rw [hexp]; omega⟩
    · split
      · exact ⟨le_refl _, by omega⟩
      · exact ⟨Nat.le_succ _, by rw [hexp]; omega⟩

theorem roundHalfEven_sixtieth (s P : ℕ) (hP : 32 ≤ P) :
    roundHalfEven (s * P) 60 / P = s / 60 := by
  obtain ⟨hlo, hhi⟩ := roundHalfEven_bounds (s * P) 60
  have hs : 60 * (s / 60) + s % 60 = s := Nat.div_add_mod s 60
  have hr : s % 60 < 60 := Nat.mod_lt s (by decide)
  have hsP : s * P = 60 * (s / 60 * P) + s % 60 * P := by
    conv_lhs => rw [← hs]
    ring
  have hrP : s % 60 * P ≤ 59 * P := Nat.mul_le_mul_right P (by omega)
  have hk : s / 60 * P ≤ s * P / 60 := by
    rw [Nat.le_div_iff_mul_le (by decide)]
    omega
  have hPpos : 0 < P := by omega
  apply Nat.div_eq_of_lt_le
  · omega
  · have hexp : (s / 60 + 1) * P = s / 60 * P + P := by ring
    rw [hexp]
    omega

theorem mkRat_num_div_den (a : ℤ) (b : ℕ) :
    (mkRat a b).num / ((mkRat a b).den : ℤ) = a / (b : ℤ) := by
  rw [← Rat.floor_def', Rat.mkRat_eq_div]
  exact Rat.floor_intCast_div_natCast a b

theorem floor_sixtieth (s : ℕ) (hs : s < 2 ^ 53) :
    (ofRatio (s : ℤ) 60).floor = .finite ((s / 60 : ℕ) : ℤ) := by
  by_cases h0 : s = 0
  · subst h0
    decide
  · have hp := quantumExp_sixtieth_le s hs
    have hneg : decide ((s : ℤ) < 0) = false := by simp
    have hto : (quantumExp s 60).toNat = 0 := by omega
    obtain ⟨e, he⟩ : ∃ e : ℕ, (-(quantumExp s 60)).toNat = e ∧ 5 ≤ e := ⟨_, rfl, by omega⟩
    have hP : 32 ≤ 2 ^ e := by
      calc 32 = 2 ^ 5 := by norm_num
        _ ≤ 2 ^ e := Nat.pow_le_pow_right (by decide) he.2
    have hsig : significand s 60 = roundHalfEven (s * 2 ^ e) 60 := by
      unfold significand
      rw [hto, he.1, pow_zero, Nat.mul_one]
    have hfin : ofRatio (s : ℤ) 60 =
        .finite (mkRat ((roundHalfEven (s * 2 ^ e) 60 : ℕ) : ℤ) (2 ^ e)) := by
      unfold ofRatio toBinary64
      rw [hneg, Int.natAbs_ofNat, if_neg h0, if_neg (by omega), hsig, hto, he.1, pow_zero,
        Nat.mul_one]
      simp
    rw [hfin]
    show JsInteger.finite
      ((mkRat ((roundHalfEven (s * 2 ^ e) 60 : ℕ) : ℤ) (2 ^ e)).num /
        ((mkRat ((roundHalfEven (s * 2 ^ e) 60 : ℕ) : ℤ) (2 ^ e)).den : ℤ)) = _
    rw [mkRat_num_div_den, ← Int.ofNat_ediv, roundHalfEven_sixtieth s (2 ^ e) hP]

theorem naturalText_small (v : ℕ) (h : v < 2 ^ 53) : naturalText v = toString v := by
  unfold naturalText
  rw [if_pos h]

/-- C18 as stated fails: `10 ^ 21` is an integer that a number holds exactly,
and `formatDuration` writes `16666666666666666000:40` for it, not the decimal
text of `10 ^ 21 / 60`. -/
theorem formatDuration_large_differs :
    ¬ (∀ s : ℕ, formatDuration s = toString (s / 60) ++ ":" ++
        String.mk [Nat.digitChar (s % 60 / 10), Nat.digitChar (s % 60 % 10)]) := by
  intro h
  have h1 := h (10 ^ 21)
  have h2 : formatDuration (10 ^ 21) = "16666666666666666000:40" := by decide
  rw [h2] at h1
  exact absurd h1 (by decide)

/-- C18, amended: for every non-negative integer `s` below `2 ^ 53`,
`formatDuration(s)` is the decimal text of `s / 60`, a colon, and the two
decimal digits of `s % 60`; the seconds field is below 60 and
`60 * (s / 60) + s % 60 = s`. So 0 gives `0:00`, 65 gives `1:05` and 3600
gives `60:00`. -/
theorem formatDuration_spec (s : ℕ) (hs : s < 2 ^ 53) :
    formatDuration s = toString (s / 60) ++ ":" ++
      String.mk [Nat.digitChar (s % 60 / 10), Nat.digitChar (s % 60 % 10)] ∧
    s % 60 < 60 ∧ 60 * (s / 60) + s % 60 = s ∧
    formatDuration 0 = "0:00" ∧ formatDuration 65 = "1:05" ∧ formatDuration 3600 = "60:00" := by
  have hlt : s % 60 < 60 := Nat.mod_lt s (by decide)
  refine ⟨?_, hlt, Nat.div_add_mod s 60, by decide, by decide, by decide⟩
  have hq : s / 60 < 2 ^ 53 := lt_of_le_of_lt (Nat.div_le_self s 60) hs
  have hr : s % 60 < 2 ^ 53 := lt_trans hlt (by norm_num)
  unfold formatDuration
  rw [floor_sixtieth s hs, naturalText_small _ hr, padStart_two_digits (s % 60) hlt]
  have htext : (JsInteger.finite ((s / 60 : ℕ) : ℤ)).text = toString (s / 60) := by
    show (if ((s / 60 : ℕ) : ℤ) < 0 then "-" ++ naturalText ((s / 60 : ℕ) : ℤ).natAbs
      else naturalText ((s / 60 : ℕ) : ℤ).natAbs) = _
    rw [if_neg (Int.not_lt.mpr (Int.ofNat_nonneg _)), Int.natAbs_ofNat, naturalText_small _ hq]
  rw [htext]

/-- C19: on a persisted history of `n ≥ 10` entries, `saveToHistory` with a
result other than `null` stores a history of exactly `n` entries, the new
entry first; so a history of more than 10 entries stays longer than 10. -/
theorem saveToHistory_keeps_length (h : List Json) (now : String) (r : Json)
    (hlen : 10 ≤ h.length) (hr : r ≠ .null) :
    ∃ entry entries, historyEntry now r = .ok entry ∧
      saveToHistory (some (.json (.arr h))) now r = .ok (some (.json (.arr (entry :: entries)))) ∧
      (entry :: entries).length = h.length ∧
      (10 < h.length → 10 < (entry :: entries).length) := by
  have hne : h ≠ [] := by
    intro hnil
    rw [hnil] at hlen
    exact absurd hlen (by decide)
  refine ⟨_, h.dropLast, historyEntry_ok now r hr, ?_, ?_, ?_⟩
  · rw [saveToHistory_arr h now r _ (historyEntry_ok now r hr),
      if_pos (by rw [List.length_cons]; omega)]
    cases h with
    | nil => exact absurd rfl hne
    | cons a t => rfl
  · rw [List.length_cons, List.length_dropLast]
    omega
  · intro hgt
    rw [List.length_cons, List.length_dropLast]
    omega

theorem statOperands_length : ∀ (history : List Json) (operands : List (ℚ × ℚ)),
    statOperands history = some operands → operands.length = history.length := by
  intro history
  induction history with
  | nil =>
    intro operands h
    simp only [statOperands, Option.some.injEq] at h
    subst h
    rfl
  | cons entry rest ih =>
    intro operands h
    unfold statOperands at h
    cases ho : entryOperands entry with
    | none => simp [ho] at h
    | some o =>
      cases hr : statOperands rest with
      | none => simp [ho, hr] at h
      | some os =>
        simp only [ho, hr, Option.some.injEq] at h
        rw [← h, List.length_cons, List.length_cons, ih os hr]

theorem statOperands_no_null : ∀ (history : List Json) (operands : List (ℚ × ℚ)),
    statOperands history = some operands →
    history.any (fun entry => match entry with | .null => true | _ => false) = false := by
  intro history
  induction history with
  | nil =>
    intro operands _
    rfl
  | cons entry rest ih =>
    intro operands h
    unfold statOperands at h
    cases ho : entryOperands entry with
    | none => simp [ho] at h
    | some o =>
      cases hr : statOperands rest with
      | none => simp [ho, hr] at h
      | some os =>
        rw [List.any_cons, ih os hr, Bool.or_false]
        cases entry <;> first | rfl | (simp [entryOperands] at ho)

theorem updateStats_of_operands (item : Option (Stored Json)) (history : List Json)
    (operands : List (ℚ × ℚ)) (hitem : persistedHistory item = some history)
    (hops : statOperands history = some operands) :
    updateStats item = .ok (some (statsOf operands)) := by
  have hparse := persistedHistory_eq_some hitem
  have hnull := statOperands_no_null history operands hops
  simp [updateStats, hparse, hnull, hops, bind, Except.bind, pure, Except.pure]

theorem round_finite (q : ℚ) : (JsNumber.finite q).round = .finite ⌊q + 1 / 2⌋ := by
  have hq : (q.num : ℚ) / (q.den : ℚ) = q := Rat.num_div_den q
  have hd : (q.den : ℚ) ≠ 0 := by exact_mod_cast q.den_nz
  have h : q + 1 / 2 = ((2 * q.num + q.den : ℤ) : ℚ) / ((2 * q.den : ℕ) : ℚ) := by
    push_cast
    field_simp
    nth_rewrite 1 [← hq]
    field_simp
    ring
  show JsInteger.finite ((2 * q.num + q.den) / (2 * (q.den : ℤ))) = _
  rw [h, Rat.floor_intCast_div_natCast]
  push_cast
  rfl

theorem integerText_small (k : ℤ) (h : k.natAbs < 2 ^ 53) :
    (JsInteger.finite k).text = toString k := by
  show (if k < 0 then "-" ++ naturalText k.natAbs else naturalText k.natAbs) = _
  rw [naturalText_small _ h]
  cases k with
  | ofNat m =>
    have hm : ¬ Int.ofNat m < 0 := Int.not_lt.mpr (Int.zero_le_ofNat m)
    rw [if_neg hm]
    rfl
  | negSucc m =>
    rw [if_pos (Int.negSucc_lt_zero m)]
    rfl

theorem toFixed1_finite (q : ℚ) (h : |q| < 10 ^ 21) :
    (JsNumber.finite q).toFixed1 = oneDecimalText q := by
  unfold oneDecimalText
  have hd : (q.den : ℚ) ≠ 0 := by exact_mod_cast q.den_nz
  have hdpos : (0 : ℚ) < (q.den : ℚ) := by exact_mod_cast q.den_pos
  have habs : |q| = (q.num.natAbs : ℚ) / (q.den : ℚ) := by
    rw [Rat.abs_def, Rat.divInt_eq_div]
    simp only [Int.cast_natCast]
  have hsmall : ¬ 10 ^ 21 * q.den ≤ q.num.natAbs := by
    rw [habs, div_lt_iff₀ hdpos] at h
    intro hc
    have hc' : ((10 ^ 21 * q.den : ℕ) : ℚ) ≤ (q.num.natAbs : ℚ) := by exact_mod_cast hc
    push_cast at hc'
    linarith
  have htenths : ⌊|q| * 10 + 1 / 2⌋.toNat = (20 * q.num.natAbs + q.den) / (2 * q.den) := by
    have h2 : |q| * 10 + 1 / 2 =
        (((20 * q.num.natAbs + q.den : ℕ) : ℤ) : ℚ) / ((2 * q.den : ℕ) : ℚ) := by
      rw [habs, Int.cast_natCast]
      simp only [Nat.cast_add, Nat.cast_mul, Nat.cast_ofNat]
      field_simp
      ring
    rw [h2, Rat.floor_intCast_div_natCast, ← Int.ofNat_ediv, Int.toNat_ofNat]
  show (if q.num < 0 then "-" else "") ++
      (if 10 ^ 21 * q.den ≤ q.num.natAbs then naturalText (q.num.natAbs / q.den)
       else toString ((20 * q.num.natAbs + q.den) / (2 * q.den) / 10) ++ "." ++
         toString ((20 * q.num.natAbs + q.den) / (2 * q.den) % 10)) = _
  rw [if_neg hsmall, htenths]
  by_cases hneg : q < 0
  · rw [if_pos hneg, if_pos (Rat.num_neg.mpr hneg)]
  · rw [if_neg hneg, if_neg (fun hc => hneg (Rat.num_neg.mp hc))]

theorem statsOf_nonempty (operands : List (ℚ × ℚ)) (h : 0 < operands.length) :
    statsOf operands =
      { totalConversions := toString operands.length
        avgAccuracy := ((doubleMean (operands.map Prod.fst)).mulNat 100).round.text ++ "%"
        avgTime := (doubleMean (operands.map Prod.snd)).toFixed1 ++ "s" } := by
  unfold statsOf
  rw [if_pos h]

/-- C7 as stated fails: for the history of the one entry whose confidence is
the number 0.615 (the binary64 value `2769713770832855 / 2 ^ 52`, below 0.615)
`updateStats` shows `62%`, while the mean times 100 is below 61.5 and its
nearest integer is 61. -/
theorem updateStats_accuracy_not_exact_rounding :
    ¬ (∀ (history : List Json) (operands : List (ℚ × ℚ)), history ≠ [] →
        statOperands history = some operands →
        ∃ stats, updateStats (some (.json (.arr history))) = .ok (some stats) ∧
          stats.totalConversions = toString history.length ∧
          stats.avgAccuracy = nearestIntegerText (exactMean (operands.map Prod.fst) * 100) ++ "%" ∧
          stats.avgTime = oneDecimalText (exactMean (operands.map Prod.snd)) ++ "s") := by
  intro h
  obtain ⟨stats, hstats, -, hacc, -⟩ :=
    h [.obj [("confidence", .num (mkRat 2769713770832855 4503599627370496))]]
      [(mkRat 2769713770832855 4503599627370496, 0)] (by simp) rfl
  rw [updateStats_of_operands
    (some (.json (.arr [.obj [("confidence", .num (mkRat 2769713770832855 4503599627370496))]])))
    [.obj [("confidence", .num (mkRat 2769713770832855 4503599627370496))]]
    [(mkRat 2769713770832855 4503599627370496, 0)] rfl rfl] at hstats
  simp only [Except.ok.injEq, Option.some.injEq] at hstats
  have hshown : (statsOf [(mkRat 2769713770832855 4503599627370496, 0)]).avgAccuracy = "62%" := by
    decide
  have hmean : ⌊exactMean (List.map Prod.fst
      [((mkRat 2769713770832855 4503599627370496 : ℚ), (0 : ℚ))]) * 100 + 1 / 2⌋ = 61 := by
    simp only [exactMean, List.map_cons, List.map_nil, List.sum_cons, List.sum_nil,
      List.length_cons, List.length_nil]
    rw [Rat.mkRat_eq_div]
    norm_num
  rw [← hstats, hshown] at hacc
  unfold nearestIntegerText at hacc
  rw [hmean] at hacc
  exact absurd hacc (by decide)

/-- C7, amended: for every non-empty persisted history whose entries carry
numbers or nothing under `confidence` and `duration` (a missing one counts as
0), `updateStats` shows the number of entries; it shows `Math.round` of the
binary64 product by 100 of the binary64 mean of the confidences, followed by
`%`, and the binary64 mean of the durations written by `toFixed(1)`, followed
by `s`. Where that mean and that product are exact (below `2 ^ 53`, and
`10 ^ 21` for the durations) these are the exact mean times 100 rounded to the
nearest integer and the exact mean with one decimal place. For the history of
the entries with confidence 0.9, duration 2 and confidence 0.7, duration 4 it
shows 2, `80%` and `3.0s`; there the sum of 0.9 and 0.7 is rounded to the
number 1.6, as the third of 1 and the product of 0.615 by 100 are rounded. -/
theorem updateStats_summary (item : Option (Stored Json)) (history : List Json)
    (operands : List (ℚ × ℚ)) (hitem : persistedHistory item = some history)
    (hne : history ≠ []) (hops : statOperands history = some operands) :
    (∃ stats, updateStats item = .ok (some stats) ∧
      stats.totalConversions = toString history.length ∧
      stats.avgAccuracy =
        ((doubleMean (operands.map Prod.fst)).mulNat 100).round.text ++ "%" ∧
      stats.avgTime = (doubleMean (operands.map Prod.snd)).toFixed1 ++ "s" ∧
      (doubleMean (operands.map Prod.fst) = .finite (exactMean (operands.map Prod.fst)) →
        (doubleMean (operands.map Prod.fst)).mulNat 100 =
          .finite (exactMean (operands.map Prod.fst) * 100) →
        ⌊exactMean (operands.map Prod.fst) * 100 + 1 / 2⌋.natAbs < 2 ^ 53 →
        stats.avgAccuracy =
          nearestIntegerText (exactMean (operands.map Prod.fst) * 100) ++ "%") ∧
      (doubleMean (operands.map Prod.snd) = .finite (exactMean (operands.map Prod.snd)) →
        |exactMean (operands.map Prod.snd)| < 10 ^ 21 →
        stats.avgTime = oneDecimalText (exactMean (operands.map Prod.snd)) ++ "s")) ∧
    statOperand .undefined = some 0 ∧
    ofRatio 9 10 = .finite (mkRat 8106479329266893 9007199254740992) ∧
    ofRatio 7 10 = .finite (mkRat 3152519739159347 4503599627370496) ∧
    doubleSum [mkRat 8106479329266893 9007199254740992, mkRat 3152519739159347 4503599627370496]
      = .finite (mkRat 3602879701896397 2251799813685248) ∧
    doubleMean [1, 0, 0] = .finite (mkRat 6004799503160661 18014398509481984) ∧
    (JsNumber.finite (mkRat 2769713770832855 4503599627370496)).mulNat 100
      = .finite (mkRat 123 2) ∧
    updateStats (some (.json (.arr [
      .obj [("confidence", .num (mkRat 8106479329266893 9007199254740992)),
        ("duration", .num 2)],
      .obj [("confidence", .num (mkRat 3152519739159347 4503599627370496)),
        ("duration", .num 4)]]))) =
      .ok (some { totalConversions := "2", avgAccuracy := "80%", avgTime := "3.0s" }) := by
  have hlen := statOperands_length history operands hops
  have hpos : 0 < operands.length := by
    rw [hlen]
    exact List.length_pos.mpr hne
  refine ⟨⟨statsOf operands, updateStats_of_operands item history operands hitem hops,
    ?_, ?_, ?_, ?_, ?_⟩, rfl, by decide, by decide, by decide, by decide, by decide, ?_⟩
  · rw [statsOf_nonempty operands hpos, hlen]
  · rw [statsOf_nonempty operands hpos]
  · rw [statsOf_nonempty operands hpos]
  · intro _ hprod hsmall
    rw [statsOf_nonempty operands hpos]
    show ((doubleMean (operands.map Prod.fst)).mulNat 100).round.text ++ "%" = _
    rw [hprod, round_finite, integerText_small _ hsmall]
    rfl
  · intro hmean hsmall
    rw [statsOf_nonempty operands hpos]
    show (doubleMean (operands.map Prod.snd)).toFixed1 ++ "s" = _
    rw [hmean, toFixed1_finite _ hsmall]
  · rw [updateStats_of_operands
      (some (.json (.arr [
        .obj [("confidence", .num (mkRat 8106479329266893 9007199254740992)),
          ("duration", .num 2)],
        .obj [("confidence", .num (mkRat 3152519739159347 4503599627370496)),
          ("duration", .num 4)]])))
      [.obj [("confidence", .num (mkRat 8106479329266893 9007199254740992)),
          ("duration", .num 2)],
        .obj [("confidence", .num (mkRat 3152519739159347 4503599627370496)),
          ("duration", .num 4)]]
      [(mkRat 8106479329266893 9007199254740992, 2),
        (mkRat 3152519739159347 4503599627370496, 4)] rfl rfl]
    have hstats : statsOf [((mkRat 8106479329266893 9007199254740992 : ℚ), (2 : ℚ)),
        (mkRat 3152519739159347 4503599627370496, 4)] =
        { totalConversions := "2", avgAccuracy := "80%", avgTime := "3.0s" } := by
      decide
    rw [hstats]

/-! ## Instances of the properties -/

theorem handleFile_accepts_iff_witness :
    ¬ ("text/plain" ∈ ["image/png", "image/jpeg", "image/jpg", "image/bmp", "image/tiff",
        "image/webp"] ∧ 12 ≤ 10 * 1024 * 1024) ∧
    (handleFile (some ⟨"old.png", "image/png", 2048⟩) ⟨"notes.txt", "text/plain", 12⟩).shown
      ≠ none ∧
    (handleFile (some ⟨"old.png", "image/png", 2048⟩) ⟨"notes.txt", "text/plain", 12⟩).selectedFile
      = some ⟨"old.png", "image/png", 2048⟩ :=
  ⟨by decide,
    (handleFile_accepts_iff (some ⟨"old.png", "image/png", 2048⟩)
      ⟨"notes.txt", "text/plain", 12⟩).2 (by decide)⟩

theorem saveToHistory_prepends_witness :
    (persistedHistory none = some [] ∧ ([] : List Json).length ≤ 10 ∧
      Json.obj [("text", .str "new"), ("confidence", .num 1)] ≠ .null ∧
      ∃ entry, historyEntry "2024-05-01T10:00:00.000Z"
          (.obj [("text", .str "new"), ("confidence", .num 1)]) = .ok entry ∧
        saveToHistory none "2024-05-01T10:00:00.000Z"
          (.obj [("text", .str "new"), ("confidence", .num 1)]) =
          .ok (some (.json (.arr [entry])))) ∧
    (persistedHistory (some (.json (.arr (List.replicate 10 (Json.obj [("text", .str "old")])))))
        = some (List.replicate 10 (Json.obj [("text", .str "old")])) ∧
      (List.replicate 10 (Json.obj [("text", .str "old")])).length ≤ 10 ∧
      ∃ entry, historyEntry "2024-05-01T10:00:00.000Z"
          (.obj [("text", .str "new"), ("confidence", .num 1)]) = .ok entry ∧
        saveToHistory (some (.json (.arr (List.replicate 10 (Json.obj [("text", .str "old")])))))
            "2024-05-01T10:00:00.000Z" (.obj [("text", .str "new"), ("confidence", .num 1)]) =
          .ok (some (.json (.arr (entry ::
            List.replicate 9 (Json.obj [("text", .str "old")])))))) :=
  ⟨⟨rfl, by decide, fun h => Json.noConfusion h,
      (saveToHistory_prepends none [] "2024-05-01T10:00:00.000Z"
        (.obj [("text", .str "new"), ("confidence", .num 1)]) rfl (by decide)
        (fun h => Json.noConfusion h)).elim
        (fun entry he => ⟨entry, he.1, he.2.2.2.2.2.1⟩)⟩,
    ⟨rfl, by decide,
      (saveToHistory_prepends
        (some (.json (.arr (List.replicate 10 (Json.obj [("text", .str "old")])))))
        (List.replicate 10 (Json.obj [("text", .str "old")])) "2024-05-01T10:00:00.000Z"
        (.obj [("text", .str "new"), ("confidence", .num 1)]) rfl (by decide)
        (fun h => Json.noConfusion h)).elim
        (fun entry he => ⟨entry, he.1, he.2.2.2.2.2.1⟩)⟩⟩

theorem saveSetting_roundtrip_witness :
    "theme" ≠ "__proto__" ∧
    ∃ settings', saveSetting (some (.json [("speechRate", .str "1.5")])) "theme" (.str "dark") =
        .ok (some (.json settings')) ∧
      loadSettings (some (.json settings')) = .ok settings' ∧
      lookup "theme" settings' = .val (.str "dark") ∧
      (∀ k2, k2 ≠ "theme" → lookup k2 settings' = lookup k2 [("speechRate", .str "1.5")]) ∧
      ∀ (k2 : String) (v2 : Json), k2 ≠ "theme" → k2 ≠ "__proto__" →
        ∃ settings'', saveSetting (some (.json settings')) k2 v2 =
            .ok (some (.json settings'')) ∧
          loadSettings (some (.json settings'')) = .ok settings'' ∧
          lookup "theme" settings'' = .val (.str "dark") ∧ lookup k2 settings'' = .val v2 :=
  ⟨by decide,
    saveSetting_roundtrip [("speechRate", .str "1.5")] "theme" (.str "dark") (by decide)⟩

theorem registerFormSubmit_mismatch_witness :
    "secret1" ≠ "secret2" ∧
    (registerFormSubmit (AuthManager.initial none) "rahim" "rahim@example.org" "secret1"
      "secret2" (.networkError "Failed to fetch")).1 = AuthManager.initial none ∧
    (registerFormSubmit (AuthManager.initial none) "rahim" "rahim@example.org" "secret1"
      "secret2" (.networkError "Failed to fetch")).2 =
      [.showError (.text "Passwords do not match")] ∧
    ∀ e ∈ (registerFormSubmit (AuthManager.initial none) "rahim" "rahim@example.org" "secret1"
      "secret2" (.networkError "Failed to fetch")).2, e.isFetch = false :=
  ⟨by decide,
    registerFormSubmit_mismatch (AuthManager.initial none) "rahim" "rahim@example.org"
      "secret1" "secret2" (.networkError "Failed to fetch") (by decide)⟩

theorem login_failure_shows_detail_witness :
    (Json.obj [("detail", .str "Invalid credentials")]).field "detail" =
      .val (.str "Invalid credentials") ∧
    "Invalid credentials" ≠ "" ∧
    (login (AuthManager.initial none) "rahim" "wrong"
      (.response false (.ok (.obj [("detail", .str "Invalid credentials")])))).1 =
      AuthManager.initial none ∧
    (login (AuthManager.initial none) "rahim" "wrong"
      (.response false (.ok (.obj [("detail", .str "Invalid credentials")])))).2.1 =
      [.fetch "/login" ["rahim", "wrong"], .showError (.text "Invalid credentials")] ∧
    (login (AuthManager.initial none) "rahim" "wrong"
      (.response false (.ok (.obj [("detail", .str "Invalid credentials")])))).2.2 = false :=
  ⟨rfl, by decide,
    login_failure_shows_detail (AuthManager.initial none) "rahim" "wrong" "Invalid credentials"
      (.obj [("detail", .str "Invalid credentials")]) rfl (by decide)⟩

theorem logout_clears_session_witness :
    (storeAuth (AuthManager.initial none) (.val (.str "tok"))
      (.val (.obj [("username", .str "rahim")]))).token.truthy = true ∧
    (logout (storeAuth (AuthManager.initial none) (.val (.str "tok"))
      (.val (.obj [("username", .str "rahim")]))) (.networkError "Failed to fetch")).1.token
      = .val .null ∧
    (logout (storeAuth (AuthManager.initial none) (.val (.str "tok"))
      (.val (.obj [("username", .str "rahim")]))) (.networkError "Failed to fetch")).1.currentUser
      = .val .null ∧
    (logout (storeAuth (AuthManager.initial none) (.val (.str "tok"))
      (.val (.obj [("username", .str "rahim")]))) (.networkError "Failed to fetch")).1.token.present
      = false ∧
    (logout (storeAuth (AuthManager.initial none) (.val (.str "tok"))
      (.val (.obj [("username", .str "rahim")])))
      (.networkError "Failed to fetch")).1.currentUser.present = false ∧
    (logout (storeAuth (AuthManager.initial none) (.val (.str "tok"))
      (.val (.obj [("username", .str "rahim")]))) (.networkError "Failed to fetch")).1.stored
      = none ∧
    isAuthenticated (logout (storeAuth (AuthManager.initial none) (.val (.str "tok"))
      (.val (.obj [("username", .str "rahim")]))) (.networkError "Failed to fetch")).1 = false :=
  ⟨by decide,
    logout_clears_session (storeAuth (AuthManager.initial none) (.val (.str "tok"))
      (.val (.obj [("username", .str "rahim")]))) (.networkError "Failed to fetch") (by decide)⟩

theorem validateToken_trust_signal_witness :
    (FetchOutcome.response true (.ok (.obj [("authenticated", .bool true)]))).authenticated
      = true ∧
    (validateToken (storeAuth (AuthManager.initial none) (.val (.str "tok"))
      (.val (.obj [("username", .str "rahim")])))
      (.response true (.ok (.obj [("authenticated", .bool true)])))).1 =
      storeAuth (AuthManager.initial none) (.val (.str "tok"))
        (.val (.obj [("username", .str "rahim")])) ∧
    (FetchOutcome.response false (.ok (.obj []))).authenticated = false ∧
    (validateToken (storeAuth (AuthManager.initial none) (.val (.str "tok"))
      (.val (.obj [("username", .str "rahim")])))
      (.response false (.ok (.obj [])))).1.stored = none :=
  ⟨rfl,
    (validateToken_trust_signal (storeAuth (AuthManager.initial none) (.val (.str "tok"))
      (.val (.obj [("username", .str "rahim")])))
      (.response true (.ok (.obj [("authenticated", .bool true)])))).2.1 rfl,
    rfl,
    ((validateToken_trust_signal (storeAuth (AuthManager.initial none) (.val (.str "tok"))
      (.val (.obj [("username", .str "rahim")])))
      (.response false (.ok (.obj [])))).2.2 rfl).2.2.2.2.2⟩

theorem getAuthHeaders_by_token_witness :
    (storeAuth (AuthManager.initial none) (.val (.str "tok"))
      (.val (.obj [("username", .str "rahim")]))).token.truthy = true ∧
    getAuthHeaders (storeAuth (AuthManager.initial none) (.val (.str "tok"))
      (.val (.obj [("username", .str "rahim")]))) =
      [("Authorization", .bearer (.val (.str "tok")))] ∧
    (AuthManager.initial none).token = .val .null ∧
    isAuthenticated (AuthManager.initial none) = false ∧
    getAuthHeaders (AuthManager.initial none) = [] :=
  ⟨rfl,
    (getAuthHeaders_by_token (storeAuth (AuthManager.initial none) (.val (.str "tok"))
      (.val (.obj [("username", .str "rahim")])))).1 rfl,
    rfl,
    (getAuthHeaders_by_token (AuthManager.initial none)).2.2.2 rfl⟩

theorem session_token_user_paired_witness :
    PairedRecord (some (.json (.obj [("token", .str "old"),
      ("user", .obj [("username", .str "rahim")])]))) ∧
    (∀ c ∈ [AuthCall.loadStoredAuth,
        AuthCall.validateToken (.response false (.ok (.obj []))),
        AuthCall.login "rahim" "secret" (.response true (.ok (.obj [("access_token", .str "tok"),
          ("user", .obj [("username", .str "rahim")])])))], c.Paired) ∧
    (runAuthCalls (AuthManager.initial (some (.json (.obj [("token", .str "old"),
      ("user", .obj [("username", .str "rahim")])]))))
      [AuthCall.loadStoredAuth,
        AuthCall.validateToken (.response false (.ok (.obj []))),
        AuthCall.login "rahim" "secret" (.response true (.ok (.obj [("access_token", .str "tok"),
          ("user", .obj [("username", .str "rahim")])])))]).token.present =
    (runAuthCalls (AuthManager.initial (some (.json (.obj [("token", .str "old"),
      ("user", .obj [("username", .str "rahim")])]))))
      [AuthCall.loadStoredAuth,
        AuthCall.validateToken (.response false (.ok (.obj []))),
        AuthCall.login "rahim" "secret" (.response true (.ok (.obj [("access_token", .str "tok"),
          ("user", .obj [("username", .str "rahim")])])))]).currentUser.present :=
  have hs : PairedRecord (some (.json (.obj [("token", .str "old"),
      ("user", .obj [("username", .str "rahim")])]))) := by
    show (JsVal.val (Json.str "old")).present = _
    rfl
  have hc : ∀ c ∈ [AuthCall.loadStoredAuth,
      AuthCall.validateToken (.response false (.ok (.obj []))),
      AuthCall.login "rahim" "secret" (.response true (.ok (.obj [("access_token", .str "tok"),
        ("user", .obj [("username", .str "rahim")])])))], c.Paired := by
    intro c hmem
    simp only [List.mem_cons, List.mem_singleton, List.not_mem_nil, or_false] at hmem
    rcases hmem with h | h | h
    · rw [h]; trivial
    · rw [h]; trivial
    · rw [h]
      show (JsVal.val (Json.str "tok")).present = _
      rfl
  ⟨hs, hc, (session_token_user_paired _ _ hs hc).1⟩

theorem handleHashChange_follows_fragment_witness :
    isValidPage "history" = true ∧
    (handleHashChange { pageIds := ["converter", "history"], hasSidebar := true, innerWidth := 800 }
      { (Router.initial "") with fragment := "history" }).currentPage = "history" ∧
    (isValidPage "profile" = false) ∧
    handleHashChange { pageIds := ["converter", "history"], hasSidebar := true, innerWidth := 800 }
      { (Router.initial "") with fragment := "profile" } =
      { (Router.initial "") with fragment := "profile" } :=
  ⟨by decide,
    ((handleHashChange_follows_fragment { pageIds := ["converter", "history"], hasSidebar := true, innerWidth := 800 } (Router.initial "") "history").1 (by decide)).2.1,
    by decide,
    (handleHashChange_follows_fragment { pageIds := ["converter", "history"], hasSidebar := true, innerWidth := 800 } (Router.initial "") "profile").2
      (Or.inr (by decide))⟩

theorem loadStoredAuth_malformed_cleared_witness :
    (Stored.malformed : Stored Json).unparsable = true ∧
    (Stored.malformed : Stored Json) ≠ .empty ∧
    (loadStoredAuth (AuthManager.initial (some .malformed))).1 =
      (loadStoredAuth (AuthManager.initial none)).1 ∧
    (loadStoredAuth (AuthManager.initial (some .malformed))).1.stored = none :=
  ⟨rfl, fun h => Stored.noConfusion h,
    (loadStoredAuth_malformed_cleared .malformed rfl (fun h => Stored.noConfusion h)).1,
    (loadStoredAuth_malformed_cleared .malformed rfl
      (fun h => Stored.noConfusion h)).2.2.2.2.1⟩

theorem login_failure_without_detail_witness :
    Json.obj [("error", .str "bad")] ≠ .null ∧
    ((Json.obj [("error", .str "bad")]).field "detail").truthy = false ∧
    login (AuthManager.initial none) "rahim" "wrong"
      (.response false (.ok (.obj [("error", .str "bad")]))) =
      (AuthManager.initial none,
        [.fetch "/login" ["rahim", "wrong"], .showError (.text "Login failed")], false) ∧
    (login (AuthManager.initial none) "rahim" "wrong" (.response false (.ok .null))).1 =
      AuthManager.initial none ∧
    (login (AuthManager.initial none) "rahim" "wrong" (.response false (.ok .null))).2.2 = false :=
  ⟨fun h => Json.noConfusion h, rfl,
    (login_failure_without_detail (AuthManager.initial none) "rahim" "wrong").2.1
      (.obj [("error", .str "bad")]) (fun h => Json.noConfusion h) rfl,
    (login_failure_without_detail (AuthManager.initial none) "rahim" "wrong").1 .null⟩

theorem saveToHistory_keeps_length_witness :
    10 ≤ (List.replicate 12 (Json.obj [("text", .str "old")])).length ∧
    Json.obj [("text", .str "new")] ≠ .null ∧
    ∃ entry entries, historyEntry "2024-05-01T10:00:00.000Z" (.obj [("text", .str "new")])
        = .ok entry ∧
      saveToHistory (some (.json (.arr (List.replicate 12 (Json.obj [("text", .str "old")])))))
        "2024-05-01T10:00:00.000Z" (.obj [("text", .str "new")]) =
        .ok (some (.json (.arr (entry :: entries)))) ∧
      (entry :: entries).length = (List.replicate 12 (Json.obj [("text", .str "old")])).length ∧
      (10 < (List.replicate 12 (Json.obj [("text", .str "old")])).length →
        10 < (entry :: entries).length) :=
  ⟨by decide, fun h => Json.noConfusion h,
    saveToHistory_keeps_length (List.replicate 12 (Json.obj [("text", .str "old")]))
      "2024-05-01T10:00:00.000Z" (.obj [("text", .str "new")]) (by decide)
      (fun h => Json.noConfusion h)⟩

theorem updateStats_summary_witness :
    persistedHistory (some (.json (.arr [
        .obj [("confidence", .num (mkRat 1 2)), ("duration", .num 2)],
        .obj [("confidence", .num (mkRat 3 4)), ("duration", .num 4)]]))) =
      some [.obj [("confidence", .num (mkRat 1 2)), ("duration", .num 2)],
        .obj [("confidence", .num (mkRat 3 4)), ("duration", .num 4)]] ∧
    statOperands [.obj [("confidence", .num (mkRat 1 2)), ("duration", .num 2)],
        .obj [("confidence", .num (mkRat 3 4)), ("duration", .num 4)]] =
      some [(mkRat 1 2, 2), (mkRat 3 4, 4)] ∧
    ∃ stats, updateStats (some (.json (.arr [
        .obj [("confidence", .num (mkRat 1 2)), ("duration", .num 2)],
        .obj [("confidence", .num (mkRat 3 4)), ("duration", .num 4)]]))) = .ok (some stats) ∧
      stats.totalConversions = "2" ∧
      stats.avgAccuracy = nearestIntegerText (5 / 8 * 100) ++ "%" ∧
      stats.avgTime = oneDecimalText 3 ++ "s" := by
  have hconf : exactMean (List.map Prod.fst [((mkRat 1 2 : ℚ), (2 : ℚ)), (mkRat 3 4, 4)]) =
      5 / 8 := by
    simp only [exactMean, List.map_cons, List.map_nil, List.sum_cons, List.sum_nil,
      List.length_cons, List.length_nil]
    rw [Rat.mkRat_eq_div, Rat.mkRat_eq_div]
    norm_num
  have hdur : exactMean (List.map Prod.snd [((mkRat 1 2 : ℚ), (2 : ℚ)), (mkRat 3 4, 4)]) =
      3 := by
    simp only [exactMean, List.map_cons, List.map_nil, List.sum_cons, List.sum_nil,
      List.length_cons, List.length_nil]
    norm_num
  have h58 : (5 / 8 : ℚ) = mkRat 5 8 := by
    rw [Rat.mkRat_eq_div]
    norm_num
  have h1252 : (5 / 8 * 100 : ℚ) = mkRat 125 2 := by
    rw [Rat.mkRat_eq_div]
    norm_num
  have h3 : (3 : ℚ) = mkRat 3 1 := by
    rw [Rat.mkRat_eq_div]
    norm_num
  refine ⟨rfl, rfl, ?_⟩
  obtain ⟨stats, hstats, hcount, -, -, hacc, htime⟩ :=
    (updateStats_summary
      (some (.json (.arr [
        .obj [("confidence", .num (mkRat 1 2)), ("duration", .num 2)],
        .obj [("confidence", .num (mkRat 3 4)), ("duration", .num 4)]])))
      [.obj [("confidence", .num (mkRat 1 2)), ("duration", .num 2)],
        .obj [("confidence", .num (mkRat 3 4)), ("duration", .num 4)]]
      [(mkRat 1 2, 2), (mkRat 3 4, 4)] rfl (by simp) rfl).1
  rw [hconf] at hacc
  rw [hdur] at htime
  refine ⟨stats, hstats, hcount, hacc ?_ ?_ ?_, htime ?_ ?_⟩
  · rw [h58]
    decide
  · rw [h1252]
    decide
  · rw [show ⌊(5 / 8 * 100 + 1 / 2 : ℚ)⌋ = 63 by norm_num]
    decide
  · rw [h3]
    decide
  · norm_num

theorem formatDuration_spec_witness :
    65 < 2 ^ 53 ∧
    formatDuration 65 = toString (65 / 60) ++ ":" ++
      String.mk [Nat.digitChar (65 % 60 / 10), Nat.digitChar (65 % 60 % 10)] :=
  ⟨by decide, (formatDuration_spec 65 (by decide)).1⟩

end BrailleVoice
